import Mathlib

/-! Shallow embedding of the ox-simulator device/profile state engine
(`src/simulator_core.h`, `src/simulator_core.cpp`, `src/device_profiles.h`,
`src/device_profiles.cpp`).  C++ `float` values are modelled as exact
rationals: the engine only stores, copies and compares them (it performs no
arithmetic on them), so the embedding is representation-faithful on every
literal that appears.  Each `std::lock_guard` critical section of the C++
code is modelled as one atomic state-to-state function; operations that take
the lock more than once are additionally decomposed into their list of
critical sections so that interleaving-dependent claims can be settled. -/

namespace OxSim

/-- `ComponentType` from device_profiles.h: the declared kind of an input
component. -/
inductive ComponentType where
  | FLOAT
  | BOOLEAN
  | VEC2
deriving DecidableEq, Repr

/-- `Vec2Axis` from device_profiles.h: which axis a FLOAT component
represents in a linked VEC2 component. -/
inductive Vec2Axis where
  | NONE
  | X
  | Y
deriving DecidableEq, Repr

/-- `OxVector2f` (external ox_driver.h, used as the VEC2 payload). -/
structure OxVector2f where
  x : ℚ
  y : ℚ
deriving DecidableEq, Repr

/-- 3-component position vector of a pose. -/
structure OxVector3f where
  x : ℚ
  y : ℚ
  z : ℚ
deriving DecidableEq, Repr

/-- Quaternion orientation of a pose. -/
structure OxQuaternion where
  x : ℚ
  y : ℚ
  z : ℚ
  w : ℚ
deriving DecidableEq, Repr

/-- `OxPose` (external ox_driver.h): position + orientation, as used by the
pose literals in device_profiles.cpp and driver.cpp. -/
structure OxPose where
  position : OxVector3f
  orientation : OxQuaternion
deriving DecidableEq, Repr

/-- `ComponentDef` from device_profiles.h.  `hand_restriction`,
`linked_vec2_path` and `linked_axis` carry the C++ defaults (`nullptr`,
`nullptr`, `Vec2Axis::NONE`), so three-element literals in
device_profiles.cpp leave them at those defaults, exactly as in C++. -/
structure ComponentDef where
  path : String
  type : ComponentType
  description : String
  hand_restriction : Option String := none
  linked_vec2_path : Option String := none
  linked_axis : Vec2Axis := Vec2Axis.NONE
deriving DecidableEq, Repr

/-- `DeviceDef`.  The header in src declares five fields, but the profile
literals in device_profiles.cpp supply six initializers and
src/src/http_server.cpp reads `dev.is_tracked`, so the header iteration the
.cpp files were written against has a `bool is_tracked` field between `role`
and `always_active`; the fourth initializer of each literal is
`always_active` (matching the per-row comments and the GUI's
"Active: Always On" handling of `always_active` devices). -/
structure DeviceDef where
  user_path : String
  role : String
  is_tracked : Bool
  always_active : Bool
  default_pose : OxPose
  components : List ComponentDef
deriving DecidableEq, Repr

/-- `DeviceType` from device_profiles.h. -/
inductive DeviceType where
  | OCULUS_QUEST_2
  | OCULUS_QUEST_3
  | HTC_VIVE
  | VALVE_INDEX
  | HTC_VIVE_TRACKER
deriving DecidableEq, Repr

/-- `DeviceProfile` from device_profiles.h. -/
structure DeviceProfile where
  type : DeviceType
  name : String
  manufacturer : String
  serial_prefix : String
  vendor_id : Nat
  product_id : Nat
  display_width : Nat
  display_height : Nat
  recommended_width : Nat
  recommended_height : Nat
  refresh_rate : ℚ
  fov_left : ℚ
  fov_right : ℚ
  fov_up : ℚ
  fov_down : ℚ
  has_position_tracking : Bool
  has_orientation_tracking : Bool
  interaction_profile : String
  devices : List DeviceDef
deriving DecidableEq, Repr

/-- `InputValue = std::variant<bool, float, OxVector2f>`
(simulator_core.h). -/
inductive InputValue where
  | b (v : Bool)
  | f (v : ℚ)
  | v2 (v : OxVector2f)
deriving DecidableEq, Repr

/-- `OxComponentResult` (external ox_driver.h):
`OX_COMPONENT_AVAILABLE` / `OX_COMPONENT_UNAVAILABLE`. -/
inductive OxComponentResult where
  | available
  | unavailable
deriving DecidableEq, Repr

/-- One entry of `DeviceState::devices` (`OxDeviceState` of the external
ox_driver.h): the runtime path, activity flag and pose of one device.  The
C++ activity flag is an integer always written as 0 or 1 and read as
`!= 0`, modelled as `Bool`.  The C++ path is a fixed char array filled by
`strncpy`; modelled from the spec: §9 mandates owned bounds-safe strings,
and the array capacity lives in the external header absent from the
repository, so the path is a `String`. -/
structure OxDeviceState where
  user_path : String
  is_active : Bool
  pose : OxPose
deriving DecidableEq, Repr

/-- `DeviceInputState` (simulator_core.h): per-device component values,
indexed by component ordinal. -/
structure DeviceInputState where
  values : List InputValue
deriving DecidableEq, Repr

/-- `DeviceState` (simulator_core.h).  The C++ fixed arrays of capacity
`OX_MAX_DEVICES` together with `device_count` are modelled as lists of
length `device_count`: every C++ read of the arrays is bounded by
`device_count`, so the stale entries beyond it are unobservable. -/
structure DeviceState where
  devices : List OxDeviceState
  device_inputs : List DeviceInputState
deriving DecidableEq, Repr

/-- The mutable members of `SimulatorCore`: the bound profile pointer and the
runtime `DeviceState` (the mutex is represented by the atomicity of each
critical-section function, not by data). -/
structure EngineState where
  profile : Option DeviceProfile
  state : DeviceState
deriving DecidableEq, Repr

/-- Modelled from the spec: `OX_MAX_DEVICES` is a capacity constant of the
external ox_driver.h header, which is not part of the repository.  The
spec's invariant 1 (runtime devices mirror the profile 1:1) requires it to
be at least the registry's maximum device count (5); the concrete value is
otherwise unobservable in the claims. -/
def OX_MAX_DEVICES : Nat := 16

/-- The engine as constructed by `SimulatorCore::SimulatorCore()`:
null profile, `device_count = 0`. -/
def emptyEngine : EngineState :=
  { profile := none, state := { devices := [], device_inputs := [] } }

/-- The loop of `SimulatorCore::FindDeviceIndexByUserPath`, carrying the
running index `i`. -/
def findDeviceIdxAux (up : String) : List OxDeviceState → Nat → Option Nat
  | [], _ => none
  | d :: rest, i => if d.user_path = up then some i else findDeviceIdxAux up rest (i + 1)

/-- `SimulatorCore::FindDeviceIndexByUserPath`: index of the first runtime
device whose stored path equals `up` (`-1` becomes `none`).  The C++ loop
bound `i < device_count && i < OX_MAX_DEVICES` is the list length here:
`device_count ≤ OX_MAX_DEVICES` always holds (Initialize clamps it). -/
def FindDeviceIndexByUserPath (st : DeviceState) (up : String) : Option Nat :=
  findDeviceIdxAux up st.devices 0

/-- The loop of `SimulatorCore::FindDeviceDefByUserPath`. -/
def findDeviceDefAux (up : String) : List DeviceDef → Option DeviceDef
  | [] => none
  | d :: rest => if d.user_path = up then some d else findDeviceDefAux up rest

/-- `SimulatorCore::FindDeviceDefByUserPath`: first device definition of the
bound profile whose path equals `up`; `none` when no profile is bound. -/
def FindDeviceDefByUserPath (profile : Option DeviceProfile) (up : String) :
    Option DeviceDef :=
  match profile with
  | none => none
  | some p => findDeviceDefAux up p.devices

/-- The loop of `SimulatorCore::FindComponentInfo`, carrying the running
index. -/
def findComponentAux (cp : String) : List ComponentDef → Nat → Option (Nat × ComponentType)
  | [], _ => none
  | c :: rest, i => if c.path = cp then some (i, c.type) else findComponentAux cp rest (i + 1)

/-- `SimulatorCore::FindComponentInfo`: ordinal index and declared type of
the first component of `dd` whose path equals `cp` (`{-1, FLOAT}` becomes
`none`; all C++ call sites null-check the device definition first). -/
def FindComponentInfo (dd : DeviceDef) (cp : String) : Option (Nat × ComponentType) :=
  findComponentAux cp dd.components 0

/-- `SimulatorCore::ValidateDeviceAndComponent`: the runtime device index,
component ordinal and declared component type for a (device path, component
path) pair, or `none` on either resolution failure (the C++ version returns
the `device_inputs` slot pointer; the index stands for it here). -/
def ValidateDeviceAndComponent (es : EngineState) (up cp : String) :
    Option (Nat × Nat × ComponentType) :=
  match FindDeviceIndexByUserPath es.state up, FindDeviceDefByUserPath es.profile up with
  | some di, some dd =>
    match FindComponentInfo dd cp with
    | some (ci, ct) => some (di, ci, ct)
    | none => none
  | _, _ => none

/-- The zero value written by `SimulatorCore::Initialize` for each declared
component kind. -/
def zeroValue : ComponentType → InputValue
  | ComponentType.FLOAT => InputValue.f 0
  | ComponentType.BOOLEAN => InputValue.b false
  | ComponentType.VEC2 => InputValue.v2 ⟨0, 0⟩

/-- `SimulatorCore::Initialize`: `false` and no mutation on a null profile,
otherwise one critical section that binds the profile and rebuilds the
runtime devices (path, `always_active` activity flag, default pose) and the
per-device component values (all zeroed) from the first
`min(OX_MAX_DEVICES, devices.size())` device definitions. -/
def Initialize (es : EngineState) (profile : Option DeviceProfile) :
    Bool × EngineState :=
  match profile with
  | none => (false, es)
  | some p =>
    let devs := p.devices.take OX_MAX_DEVICES
    (true,
      { profile := some p,
        state :=
          { devices := devs.map fun d =>
              { user_path := d.user_path
                is_active := d.always_active
                pose := d.default_pose }
            device_inputs := devs.map fun d =>
              { values := d.components.map fun c => zeroValue c.type } } })

/-- `SimulatorCore::Shutdown`: one critical section that unbinds the profile
and sets `device_count = 0` (making every array entry unobservable). -/
def Shutdown (es : EngineState) : EngineState :=
  { es with profile := none, state := { devices := [], device_inputs := [] } }

/-- `SimulatorCore::SwitchDevice`: calls `Shutdown()` and then
`Initialize(profile)`, each of which acquires and releases the state mutex
by itself (see `SwitchDeviceSections`). -/
def SwitchDevice (es : EngineState) (profile : Option DeviceProfile) :
    Bool × EngineState :=
  Initialize (Shutdown es) profile

/-- The critical sections `SimulatorCore::SwitchDevice` executes, in order:
the lock is taken and released once inside `Shutdown` and once inside
`Initialize`, so the lock is free between the two list entries and any other
engine operation can run there. -/
def SwitchDeviceSections (profile : Option DeviceProfile) :
    List (EngineState → EngineState) :=
  [fun es => Shutdown es, fun es => (Initialize es profile).2]

/-- `SimulatorCore::UpdateAllDevices`: snapshot of `device_count` and the
runtime device records, in one critical section. -/
def UpdateAllDevices (es : EngineState) : Nat × List OxDeviceState :=
  (es.state.devices.length, es.state.devices)

/-- `SimulatorCore::GetDevicePose`: pose and activity flag of the device at
the resolved index, `none` ("device not found") when unresolved. -/
def GetDevicePose (es : EngineState) (up : String) : Option (OxPose × Bool) :=
  match FindDeviceIndexByUserPath es.state up with
  | none => none
  | some i =>
    match es.state.devices.get? i with
    | some d => some (d.pose, d.is_active)
    | none => none

/-- `SimulatorCore::SetDevicePose`: no-op when the device path is
unresolved; otherwise stores the pose and stores activity
`device_always_active ? 1 : (is_active ? 1 : 0)`, where
`device_always_active` is read from the profile's device definition (or
`false` when the definition lookup fails). -/
def SetDevicePose (es : EngineState) (up : String) (pose : OxPose) (is_active : Bool) :
    EngineState :=
  match FindDeviceIndexByUserPath es.state up with
  | none => es
  | some i =>
    match es.state.devices.get? i with
    | none => es
    | some d =>
      let aa :=
        (match FindDeviceDefByUserPath es.profile up with
          | some dd => dd.always_active
          | none => false)
      let d2 : OxDeviceState :=
        { d with pose := pose, is_active := if aa then true else is_active }
      { es with state := { es.state with devices := es.state.devices.set i d2 } }

/-- The component value stored at device index `di`, component ordinal `ci`
(`input->values[comp_index]`). -/
def readValue (es : EngineState) (di ci : Nat) : Option InputValue :=
  match es.state.device_inputs.get? di with
  | none => none
  | some inp => inp.values.get? ci

/-- Overwrite the component value at device index `di`, ordinal `ci`
(`input->values[comp_index] = v`).  C++ indexes the vectors unchecked; an
out-of-range index (unreachable from the resolution helpers) is a no-op
here. -/
def writeValue (es : EngineState) (di ci : Nat) (v : InputValue) : EngineState :=
  match es.state.device_inputs.get? di with
  | none => es
  | some inp =>
    { es with state :=
        { es.state with device_inputs :=
            es.state.device_inputs.set di { values := inp.values.set ci v } } }

/-- `GetInputState<BOOLEAN, bool>` (simulator_core.cpp 166-193): one
critical section.  On the declared-kind match the stored `bool` is returned;
on a FLOAT-declared component the stored float is coerced by the `>= 0.5`
threshold; a VEC2-declared component is `OX_COMPONENT_UNAVAILABLE`.  The
value is `none` whenever C++ leaves `*out_value` unwritten.  A stored tag
differing from the declared kind would make `std::get` raise
`std::bad_variant_access`; that case (unreachable: the stored tag always
equals the declared kind) yields `unavailable` here. -/
def GetInputStateBoolean (es : EngineState) (up cp : String) :
    OxComponentResult × Option Bool :=
  match ValidateDeviceAndComponent es up cp with
  | none => (OxComponentResult.unavailable, none)
  | some (di, ci, ct) =>
    match ct with
    | ComponentType.BOOLEAN =>
      match readValue es di ci with
      | some (InputValue.b v) => (OxComponentResult.available, some v)
      | _ => (OxComponentResult.unavailable, none)
    | ComponentType.FLOAT =>
      match readValue es di ci with
      | some (InputValue.f v) =>
        (OxComponentResult.available, some (if mkRat 1 2 ≤ v then true else false))
      | _ => (OxComponentResult.unavailable, none)
    | ComponentType.VEC2 => (OxComponentResult.unavailable, none)

/-- `GetInputState<FLOAT, float>`: the stored float on a kind match, the
stored bool coerced to `1.0 / 0.0` on a BOOLEAN-declared component, and
`OX_COMPONENT_UNAVAILABLE` on a VEC2-declared component. -/
def GetInputStateFloat (es : EngineState) (up cp : String) :
    OxComponentResult × Option ℚ :=
  match ValidateDeviceAndComponent es up cp with
  | none => (OxComponentResult.unavailable, none)
  | some (di, ci, ct) =>
    match ct with
    | ComponentType.FLOAT =>
      match readValue es di ci with
      | some (InputValue.f v) => (OxComponentResult.available, some v)
      | _ => (OxComponentResult.unavailable, none)
    | ComponentType.BOOLEAN =>
      match readValue es di ci with
      | some (InputValue.b v) =>
        (OxComponentResult.available, some (if v then 1 else 0))
      | _ => (OxComponentResult.unavailable, none)
    | ComponentType.VEC2 => (OxComponentResult.unavailable, none)

/-- `GetInputState<VEC2, OxVector2f>`: only the declared-kind match is
available; both coercion branches of the template are compile-time false for
`CT = VEC2`, so every mismatch is `OX_COMPONENT_UNAVAILABLE`. -/
def GetInputStateVec2 (es : EngineState) (up cp : String) :
    OxComponentResult × Option OxVector2f :=
  match ValidateDeviceAndComponent es up cp with
  | none => (OxComponentResult.unavailable, none)
  | some (di, ci, ct) =>
    match ct with
    | ComponentType.VEC2 =>
      match readValue es di ci with
      | some (InputValue.v2 v) => (OxComponentResult.available, some v)
      | _ => (OxComponentResult.unavailable, none)
    | _ => (OxComponentResult.unavailable, none)

/-- `SetInputState<BOOLEAN, bool>` (simulator_core.cpp 195-217): one
critical section.  Stores the bool on a kind match, stores
`value ? 1.0f : 0.0f` on a FLOAT-declared component, and is a no-op on a
VEC2-declared component or any resolution failure.
`SimulatorCore::SetInputStateBoolean` is exactly this (no sync step). -/
def SetInputStateBoolean (es : EngineState) (up cp : String) (value : Bool) :
    EngineState :=
  match ValidateDeviceAndComponent es up cp with
  | none => es
  | some (di, ci, ct) =>
    match ct with
    | ComponentType.BOOLEAN => writeValue es di ci (InputValue.b value)
    | ComponentType.FLOAT => writeValue es di ci (InputValue.f (if value then 1 else 0))
    | ComponentType.VEC2 => es

/-- `SetInputState<FLOAT, float>`: the first critical section of
`SimulatorCore::SetInputStateFloat` (the write, without the sync step).
Stores the float on a kind match, stores `(value >= 0.5f)` as a bool on a
BOOLEAN-declared component, no-op on a VEC2-declared component. -/
def SetInputStateFloatCS (es : EngineState) (up cp : String) (value : ℚ) :
    EngineState :=
  match ValidateDeviceAndComponent es up cp with
  | none => es
  | some (di, ci, ct) =>
    match ct with
    | ComponentType.FLOAT => writeValue es di ci (InputValue.f value)
    | ComponentType.BOOLEAN =>
      writeValue es di ci (InputValue.b (if mkRat 1 2 ≤ value then true else false))
    | ComponentType.VEC2 => es

/-- `SetInputState<VEC2, OxVector2f>`: the first critical section of
`SimulatorCore::SetInputStateVec2`.  Stores the vector on a kind match; both
coercion branches are compile-time false for `CT = VEC2`, so every mismatch
is a no-op. -/
def SetInputStateVec2CS (es : EngineState) (up cp : String) (value : OxVector2f) :
    EngineState :=
  match ValidateDeviceAndComponent es up cp with
  | none => es
  | some (di, ci, ct) =>
    match ct with
    | ComponentType.VEC2 => writeValue es di ci (InputValue.v2 value)
    | _ => es

/-- The source-component search loop at the top of
`SyncLinkedVec2FromFloat` (`for (const auto& c : dev_def->components)`). -/
def findComponentDefAux (cp : String) : List ComponentDef → Option ComponentDef
  | [] => none
  | c :: rest => if c.path = cp then some c else findComponentDefAux cp rest

/-- First component definition of `dd` whose path equals `cp` (the `src_def`
lookup of `SyncLinkedVec2FromFloat`). -/
def findDeviceDefComponent (dd : DeviceDef) (cp : String) : Option ComponentDef :=
  findComponentDefAux cp dd.components

/-- `SimulatorCore::SyncLinkedVec2FromFloat` (simulator_core.cpp 254-289):
its own critical section.  Copies the just-stored float of a
linkage-bearing FLOAT component into the declared axis of the linked VEC2
component's value on the same device; returns the state unchanged on any of
the C++ early returns.  A stored tag differing from the declared kind would
make `std::get` raise; that unreachable case is a no-op here. -/
def SyncLinkedVec2FromFloat (es : EngineState) (up cp : String) : EngineState :=
  match FindDeviceDefByUserPath es.profile up with
  | none => es
  | some dd =>
    match findDeviceDefComponent dd cp with
    | none => es
    | some src =>
      match src.linked_vec2_path with
      | none => es
      | some lp =>
        if src.linked_axis = Vec2Axis.NONE then es
        else if src.type ≠ ComponentType.FLOAT then es
        else
          match FindDeviceIndexByUserPath es.state up with
          | none => es
          | some di =>
            match FindComponentInfo dd cp with
            | none => es
            | some (fi, ft) =>
              if ft ≠ ComponentType.FLOAT then es
              else
                match readValue es di fi with
                | some (InputValue.f axisVal) =>
                  match FindComponentInfo dd lp with
                  | none => es
                  | some (vi, vt) =>
                    if vt ≠ ComponentType.VEC2 then es
                    else
                      match readValue es di vi with
                      | some (InputValue.v2 w) =>
                        let w2 :=
                          if src.linked_axis = Vec2Axis.X then { w with x := axisVal }
                          else { w with y := axisVal }
                        writeValue es di vi (InputValue.v2 w2)
                      | _ => es
                | _ => es

/-- The linkage test of the loop in `SyncLinkedFloatsFromVec2`:
`c.type == FLOAT && c.linked_vec2_path != nullptr &&
strcmp(c.linked_vec2_path, component_path) == 0 && c.linked_axis != NONE`. -/
def linksToVec2 (c : ComponentDef) (vec2Path : String) : Bool :=
  c.type = ComponentType.FLOAT ∧ c.linked_vec2_path = some vec2Path ∧
    c.linked_axis ≠ Vec2Axis.NONE

/-- The update loop of `SyncLinkedFloatsFromVec2`: walk the device's
component definitions with their ordinals, overwriting every linked FLOAT
slot with the corresponding axis of `w`. -/
def syncFloatsAux (vec2Path : String) (w : OxVector2f) :
    List ComponentDef → Nat → List InputValue → List InputValue
  | [], _, values => values
  | c :: rest, idx, values =>
    let values2 :=
      if linksToVec2 c vec2Path then
        values.set idx
          (InputValue.f (if c.linked_axis = Vec2Axis.X then w.x else w.y))
      else values
    syncFloatsAux vec2Path w rest (idx + 1) values2

/-- `SimulatorCore::SyncLinkedFloatsFromVec2` (simulator_core.cpp 293-318):
its own critical section.  After a VEC2 write, copies the written x / y into
every FLOAT component of the same device that declares linkage to the
written VEC2 path. -/
def SyncLinkedFloatsFromVec2 (es : EngineState) (up cp : String) : EngineState :=
  match FindDeviceDefByUserPath es.profile up with
  | none => es
  | some dd =>
    match FindDeviceIndexByUserPath es.state up with
    | none => es
    | some di =>
      match FindComponentInfo dd cp with
      | none => es
      | some (vi, vt) =>
        if vt ≠ ComponentType.VEC2 then es
        else
          match readValue es di vi with
          | some (InputValue.v2 w) =>
            match es.state.device_inputs.get? di with
            | none => es
            | some inp =>
              let values2 := syncFloatsAux cp w dd.components 0 inp.values
              { es with state :=
                  { es.state with device_inputs :=
                      es.state.device_inputs.set di { values := values2 } } }
          | _ => es

/-- `SimulatorCore::SetInputStateFloat`: the templated write (one lock
section) followed by `SyncLinkedVec2FromFloat` (a second, separate lock
section); see `SetInputStateFloatSections`. -/
def SetInputStateFloat (es : EngineState) (up cp : String) (value : ℚ) :
    EngineState :=
  SyncLinkedVec2FromFloat (SetInputStateFloatCS es up cp value) up cp

/-- `SimulatorCore::SetInputStateVec2`: the templated write followed by
`SyncLinkedFloatsFromVec2`, again two separate lock sections. -/
def SetInputStateVec2 (es : EngineState) (up cp : String) (value : OxVector2f) :
    EngineState :=
  SyncLinkedFloatsFromVec2 (SetInputStateVec2CS es up cp value) up cp

/-- The critical sections `SimulatorCore::SetInputStateFloat` executes, in
order: the lock is taken and released inside `SetInputState<FLOAT, float>`
and then again inside `SyncLinkedVec2FromFloat`, so the lock is free between
the two list entries. -/
def SetInputStateFloatSections (up cp : String) (value : ℚ) :
    List (EngineState → EngineState) :=
  [fun es => SetInputStateFloatCS es up cp value,
   fun es => SyncLinkedVec2FromFloat es up cp]

/-- A three-field `ComponentDef` literal as written throughout
device_profiles.cpp: the optional fields stay at their C++ defaults
(no hand restriction, no linkage). -/
def compDef (path : String) (type : ComponentType) (description : String) :
    ComponentDef :=
  { path := path, type := type, description := description }

/-- `OCULUS_TOUCH_COMPONENTS` (device_profiles.cpp 11-34).  None of the
literals set `linked_vec2_path` or `linked_axis`, so no component of this
list carries linkage metadata. -/
def OCULUS_TOUCH_COMPONENTS : List ComponentDef :=
  [compDef "/input/trigger/value" ComponentType.FLOAT "Trigger analog value",
   compDef "/input/trigger/touch" ComponentType.BOOLEAN "Trigger touch sensor",
   compDef "/input/squeeze/value" ComponentType.FLOAT "Grip/squeeze analog value",
   compDef "/input/thumbstick" ComponentType.VEC2 "Thumbstick 2D position",
   compDef "/input/thumbstick/x" ComponentType.FLOAT "Thumbstick X axis",
   compDef "/input/thumbstick/y" ComponentType.FLOAT "Thumbstick Y axis",
   compDef "/input/thumbstick/click" ComponentType.BOOLEAN "Thumbstick click",
   compDef "/input/thumbstick/touch" ComponentType.BOOLEAN "Thumbstick touch",
   compDef "/input/x/click" ComponentType.BOOLEAN "X button click (left controller)",
   compDef "/input/x/touch" ComponentType.BOOLEAN "X button touch",
   compDef "/input/y/click" ComponentType.BOOLEAN "Y button click (left controller)",
   compDef "/input/y/touch" ComponentType.BOOLEAN "Y button touch",
   compDef "/input/a/click" ComponentType.BOOLEAN "A button click (right controller)",
   compDef "/input/a/touch" ComponentType.BOOLEAN "A button touch",
   compDef "/input/b/click" ComponentType.BOOLEAN "B button click (right controller)",
   compDef "/input/b/touch" ComponentType.BOOLEAN "B button touch",
   compDef "/input/menu/click" ComponentType.BOOLEAN "Menu button click"]

/-- `VIVE_CONTROLLER_COMPONENTS` (device_profiles.cpp 37-51). -/
def VIVE_CONTROLLER_COMPONENTS : List ComponentDef :=
  [compDef "/input/trigger/value" ComponentType.FLOAT "Trigger analog value",
   compDef "/input/trigger/click" ComponentType.BOOLEAN "Trigger click",
   compDef "/input/squeeze/click" ComponentType.BOOLEAN "Grip button click",
   compDef "/input/trackpad" ComponentType.VEC2 "Trackpad 2D position",
   compDef "/input/trackpad/x" ComponentType.FLOAT "Trackpad X axis",
   compDef "/input/trackpad/y" ComponentType.FLOAT "Trackpad Y axis",
   compDef "/input/trackpad/click" ComponentType.BOOLEAN "Trackpad click",
   compDef "/input/trackpad/touch" ComponentType.BOOLEAN "Trackpad touch",
   compDef "/input/menu/click" ComponentType.BOOLEAN "Menu button click"]

/-- `INDEX_CONTROLLER_COMPONENTS` (device_profiles.cpp 54-82). -/
def INDEX_CONTROLLER_COMPONENTS : List ComponentDef :=
  [compDef "/input/trigger/value" ComponentType.FLOAT "Trigger analog value",
   compDef "/input/trigger/click" ComponentType.BOOLEAN "Trigger click",
   compDef "/input/trigger/touch" ComponentType.BOOLEAN "Trigger touch",
   compDef "/input/squeeze/value" ComponentType.FLOAT "Grip force analog value",
   compDef "/input/squeeze/force" ComponentType.FLOAT "Grip force (alias)",
   compDef "/input/thumbstick" ComponentType.VEC2 "Thumbstick 2D position",
   compDef "/input/thumbstick/x" ComponentType.FLOAT "Thumbstick X axis",
   compDef "/input/thumbstick/y" ComponentType.FLOAT "Thumbstick Y axis",
   compDef "/input/thumbstick/click" ComponentType.BOOLEAN "Thumbstick click",
   compDef "/input/thumbstick/touch" ComponentType.BOOLEAN "Thumbstick touch",
   compDef "/input/trackpad" ComponentType.VEC2 "Trackpad 2D position",
   compDef "/input/trackpad/x" ComponentType.FLOAT "Trackpad X axis",
   compDef "/input/trackpad/y" ComponentType.FLOAT "Trackpad Y axis",
   compDef "/input/trackpad/force" ComponentType.FLOAT "Trackpad force",
   compDef "/input/trackpad/touch" ComponentType.BOOLEAN "Trackpad touch",
   compDef "/input/a/click" ComponentType.BOOLEAN "A button click",
   compDef "/input/a/touch" ComponentType.BOOLEAN "A button touch",
   compDef "/input/b/click" ComponentType.BOOLEAN "B button click",
   compDef "/input/b/touch" ComponentType.BOOLEAN "B button touch",
   compDef "/input/system/click" ComponentType.BOOLEAN "System button click",
   compDef "/input/system/touch" ComponentType.BOOLEAN "System button touch"]

/-- `VIVE_TRACKER_COMPONENTS` (device_profiles.cpp 85-87): trackers have no
input components. -/
def VIVE_TRACKER_COMPONENTS : List ComponentDef := []

/-- The identity-orientation quaternion `{0.0f, 0.0f, 0.0f, 1.0f}` used by
every default pose in device_profiles.cpp. -/
def IDENTITY_QUAT : OxQuaternion := ⟨0, 0, 0, 1⟩

/-- `QUEST_2_PROFILE` (device_profiles.cpp 92-128).  Device rows carry six
initializers `(user_path, role, is_tracked, always_active, default_pose,
components)`; see `DeviceDef` for the header-iteration note. -/
def QUEST_2_PROFILE : DeviceProfile :=
  { type := DeviceType.OCULUS_QUEST_2
    name := "Meta Quest 2 (Simulated)"
    manufacturer := "Meta Platforms"
    serial_prefix := "QUEST2-SIM"
    vendor_id := 0x2833
    product_id := 0x0186
    display_width := 1832
    display_height := 1920
    recommended_width := 1832
    recommended_height := 1920
    refresh_rate := 90
    fov_left := mkRat (-785398) 1000000
    fov_right := mkRat 785398 1000000
    fov_up := mkRat 872665 1000000
    fov_down := mkRat (-872665) 1000000
    has_position_tracking := true
    has_orientation_tracking := true
    interaction_profile := "/interaction_profiles/oculus/touch_controller"
    devices :=
      [⟨"/user/head", "hmd", true, true, ⟨⟨0, mkRat 16 10, 0⟩, IDENTITY_QUAT⟩, []⟩,
       ⟨"/user/hand/left", "left_controller", true, false,
         ⟨⟨mkRat (-2) 10, mkRat 14 10, mkRat (-3) 10⟩, IDENTITY_QUAT⟩, OCULUS_TOUCH_COMPONENTS⟩,
       ⟨"/user/hand/right", "right_controller", true, false,
         ⟨⟨mkRat 2 10, mkRat 14 10, mkRat (-3) 10⟩, IDENTITY_QUAT⟩, OCULUS_TOUCH_COMPONENTS⟩] }

/-- `QUEST_3_PROFILE` (device_profiles.cpp 130-164). -/
def QUEST_3_PROFILE : DeviceProfile :=
  { type := DeviceType.OCULUS_QUEST_3
    name := "Meta Quest 3 (Simulated)"
    manufacturer := "Meta Platforms"
    serial_prefix := "QUEST3-SIM"
    vendor_id := 0x2833
    product_id := 0x0200
    display_width := 2064
    display_height := 2208
    recommended_width := 2064
    recommended_height := 2208
    refresh_rate := 120
    fov_left := mkRat (-872665) 1000000
    fov_right := mkRat 872665 1000000
    fov_up := mkRat 959931 1000000
    fov_down := mkRat (-959931) 1000000
    has_position_tracking := true
    has_orientation_tracking := true
    interaction_profile := "/interaction_profiles/oculus/touch_controller"
    devices :=
      [⟨"/user/head", "hmd", true, true, ⟨⟨0, mkRat 16 10, 0⟩, IDENTITY_QUAT⟩, []⟩,
       ⟨"/user/hand/left", "left_controller", true, false,
         ⟨⟨mkRat (-2) 10, mkRat 14 10, mkRat (-3) 10⟩, IDENTITY_QUAT⟩, OCULUS_TOUCH_COMPONENTS⟩,
       ⟨"/user/hand/right", "right_controller", true, false,
         ⟨⟨mkRat 2 10, mkRat 14 10, mkRat (-3) 10⟩, IDENTITY_QUAT⟩, OCULUS_TOUCH_COMPONENTS⟩] }

/-- `VIVE_PROFILE` (device_profiles.cpp 166-199). -/
def VIVE_PROFILE : DeviceProfile :=
  { type := DeviceType.HTC_VIVE
    name := "HTC Vive (Simulated)"
    manufacturer := "HTC Corporation"
    serial_prefix := "VIVE-SIM"
    vendor_id := 0x0BB4
    product_id := 0x2C87
    display_width := 1080
    display_height := 1200
    recommended_width := 1080
    recommended_height := 1200
    refresh_rate := 90
    fov_left := mkRat (-785398) 1000000
    fov_right := mkRat 785398 1000000
    fov_up := mkRat 872665 1000000
    fov_down := mkRat (-872665) 1000000
    has_position_tracking := true
    has_orientation_tracking := true
    interaction_profile := "/interaction_profiles/htc/vive_controller"
    devices :=
      [⟨"/user/head", "hmd", true, true, ⟨⟨0, mkRat 16 10, 0⟩, IDENTITY_QUAT⟩, []⟩,
       ⟨"/user/hand/left", "left_controller", true, false,
         ⟨⟨mkRat (-2) 10, mkRat 14 10, mkRat (-3) 10⟩, IDENTITY_QUAT⟩, VIVE_CONTROLLER_COMPONENTS⟩,
       ⟨"/user/hand/right", "right_controller", true, false,
         ⟨⟨mkRat 2 10, mkRat 14 10, mkRat (-3) 10⟩, IDENTITY_QUAT⟩, VIVE_CONTROLLER_COMPONENTS⟩] }

/-- `INDEX_PROFILE` (device_profiles.cpp 201-234). -/
def INDEX_PROFILE : DeviceProfile :=
  { type := DeviceType.VALVE_INDEX
    name := "Valve Index HMD (Simulated)"
    manufacturer := "Valve Corporation"
    serial_prefix := "INDEX-SIM"
    vendor_id := 0x28DE
    product_id := 0x2012
    display_width := 1440
    display_height := 1600
    recommended_width := 1440
    recommended_height := 1600
    refresh_rate := 144
    fov_left := mkRat (-959931) 1000000
    fov_right := mkRat 959931 1000000
    fov_up := mkRat 959931 1000000
    fov_down := mkRat (-959931) 1000000
    has_position_tracking := true
    has_orientation_tracking := true
    interaction_profile := "/interaction_profiles/valve/index_controller"
    devices :=
      [⟨"/user/head", "hmd", true, true, ⟨⟨0, mkRat 16 10, 0⟩, IDENTITY_QUAT⟩, []⟩,
       ⟨"/user/hand/left", "left_controller", true, false,
         ⟨⟨mkRat (-2) 10, mkRat 14 10, mkRat (-3) 10⟩, IDENTITY_QUAT⟩, INDEX_CONTROLLER_COMPONENTS⟩,
       ⟨"/user/hand/right", "right_controller", true, false,
         ⟨⟨mkRat 2 10, mkRat 14 10, mkRat (-3) 10⟩, IDENTITY_QUAT⟩, INDEX_CONTROLLER_COMPONENTS⟩] }

/-- `VIVE_TRACKER_PROFILE` (device_profiles.cpp 237-273). -/
def VIVE_TRACKER_PROFILE : DeviceProfile :=
  { type := DeviceType.HTC_VIVE_TRACKER
    name := "HTC Vive Tracker (Simulated)"
    manufacturer := "HTC Corporation"
    serial_prefix := "VIVETRK-SIM"
    vendor_id := 0x0BB4
    product_id := 0x0000
    display_width := 0
    display_height := 0
    recommended_width := 0
    recommended_height := 0
    refresh_rate := 0
    fov_left := 0
    fov_right := 0
    fov_up := 0
    fov_down := 0
    has_position_tracking := false
    has_orientation_tracking := false
    interaction_profile := "/interaction_profiles/htc/vive_tracker_htcx"
    devices :=
      [⟨"/user/vive_tracker_htcx/role/waist", "waist_tracker", true, true,
         ⟨⟨0, 1, 0⟩, IDENTITY_QUAT⟩, VIVE_TRACKER_COMPONENTS⟩,
       ⟨"/user/vive_tracker_htcx/role/left_foot", "left_foot_tracker", true, true,
         ⟨⟨mkRat (-15) 100, mkRat 1 10, 0⟩, IDENTITY_QUAT⟩, VIVE_TRACKER_COMPONENTS⟩,
       ⟨"/user/vive_tracker_htcx/role/right_foot", "right_foot_tracker", true, true,
         ⟨⟨mkRat 15 100, mkRat 1 10, 0⟩, IDENTITY_QUAT⟩, VIVE_TRACKER_COMPONENTS⟩,
       ⟨"/user/vive_tracker_htcx/role/left_shoulder", "left_shoulder_tracker", true, true,
         ⟨⟨mkRat (-2) 10, mkRat 15 10, 0⟩, IDENTITY_QUAT⟩, VIVE_TRACKER_COMPONENTS⟩,
       ⟨"/user/vive_tracker_htcx/role/right_shoulder", "right_shoulder_tracker", true, true,
         ⟨⟨mkRat 2 10, mkRat 15 10, 0⟩, IDENTITY_QUAT⟩, VIVE_TRACKER_COMPONENTS⟩] }

/-- `NAME_TO_TYPE` (device_profiles.cpp 278-284).  The `std::map` is used
only through `find` with exact key equality, so an association list with the
same (distinct) keys is observationally equal. -/
def NAME_TO_TYPE : List (String × DeviceType) :=
  [("oculus_quest_2", DeviceType.OCULUS_QUEST_2),
   ("oculus_quest_3", DeviceType.OCULUS_QUEST_3),
   ("htc_vive", DeviceType.HTC_VIVE),
   ("valve_index", DeviceType.VALVE_INDEX),
   ("htc_vive_tracker", DeviceType.HTC_VIVE_TRACKER)]

/-- `NAME_TO_TYPE.find(name)`. -/
def nameToTypeFind : List (String × DeviceType) → String → Option DeviceType
  | [], _ => none
  | (k, v) :: rest, n => if k = n then some v else nameToTypeFind rest n

/-- `GetDeviceProfile` (device_profiles.cpp 287-302): total over the five
enumerators; the C++ `default: throw` branch is unreachable because every
`DeviceType` value is one of the five cases. -/
def GetDeviceProfile : DeviceType → DeviceProfile
  | DeviceType.OCULUS_QUEST_2 => QUEST_2_PROFILE
  | DeviceType.OCULUS_QUEST_3 => QUEST_3_PROFILE
  | DeviceType.HTC_VIVE => VIVE_PROFILE
  | DeviceType.VALVE_INDEX => INDEX_PROFILE
  | DeviceType.HTC_VIVE_TRACKER => VIVE_TRACKER_PROFILE

/-- `GetDeviceProfileByName` (device_profiles.cpp 304-310): null sentinel on
an unknown name, no exception on any path. -/
def GetDeviceProfileByName (name : String) : Option DeviceProfile :=
  match nameToTypeFind NAME_TO_TYPE name with
  | some t => some (GetDeviceProfile t)
  | none => none

/-- `GetDeviceTypeByName` (device_profiles.cpp 312-318): unlike
`GetDeviceProfileByName`, the not-found branch THROWS
`std::runtime_error("Unknown device name: " + name)`; the thrown exception
is modelled as the `Except.error` case carrying the exception message. -/
def GetDeviceTypeByName (name : String) : Except String DeviceType :=
  match nameToTypeFind NAME_TO_TYPE name with
  | some t => Except.ok t
  | none => Except.error ("Unknown device name: " ++ name)

/-- The five profiles the registry serves (the statics returned by
`GetDeviceProfile`'s five cases). -/
def REGISTRY_PROFILES : List DeviceProfile :=
  [QUEST_2_PROFILE, QUEST_3_PROFILE, VIVE_PROFILE, INDEX_PROFILE,
   VIVE_TRACKER_PROFILE]

/-- The engine right after `Initialize(&QUEST_2_PROFILE)` from a fresh core:
the concrete state most scenario claims start from. -/
def esQ2 : EngineState := (Initialize emptyEngine (some QUEST_2_PROFILE)).2

/-- A thumbstick X-axis component carrying the linkage metadata documented
in device_profiles.h; concrete input for the synchronizer theorems. -/
def LINKED_X_DEF : ComponentDef :=
  { path := "/input/thumbstick/x"
    type := ComponentType.FLOAT
    description := "Thumbstick X axis"
    linked_vec2_path := some "/input/thumbstick"
    linked_axis := Vec2Axis.X }

/-- The matching Y-axis component. -/
def LINKED_Y_DEF : ComponentDef :=
  { path := "/input/thumbstick/y"
    type := ComponentType.FLOAT
    description := "Thumbstick Y axis"
    linked_vec2_path := some "/input/thumbstick"
    linked_axis := Vec2Axis.Y }

/-- A controller device whose thumbstick axes declare linkage. -/
def LINKED_DEVICE_DEF : DeviceDef :=
  ⟨"/user/hand/right", "right_controller", true, false,
    ⟨⟨mkRat 2 10, mkRat 14 10, mkRat (-3) 10⟩, IDENTITY_QUAT⟩,
    [compDef "/input/thumbstick" ComponentType.VEC2 "Thumbstick 2D position",
     LINKED_X_DEF, LINKED_Y_DEF]⟩

/-- A profile whose thumbstick axis components carry the linkage metadata
documented in device_profiles.h (`linked_vec2_path` / `linked_axis`).  The
registry literals in device_profiles.cpp declare no linkage at all, so this
constructed profile is the concrete input used to exercise the
`SyncLinked...` code paths. -/
def LINKED_PROFILE : DeviceProfile :=
  { type := DeviceType.OCULUS_QUEST_2
    name := "Linked Axes Test"
    manufacturer := "Test"
    serial_prefix := "TEST-SIM"
    vendor_id := 0
    product_id := 0
    display_width := 0
    display_height := 0
    recommended_width := 0
    recommended_height := 0
    refresh_rate := 0
    fov_left := 0
    fov_right := 0
    fov_up := 0
    fov_down := 0
    has_position_tracking := true
    has_orientation_tracking := true
    interaction_profile := "/interaction_profiles/oculus/touch_controller"
    devices := [LINKED_DEVICE_DEF] }

/-- The engine right after `Initialize(&LINKED_PROFILE)`. -/
def esL : EngineState := (Initialize emptyEngine (some LINKED_PROFILE)).2

/-- A sequence of `SetDevicePose` calls applied in order (each call is one
critical section). -/
def applyPoseCalls (es : EngineState) : List (String × OxPose × Bool) → EngineState
  | [] => es
  | (up, pose, act) :: rest => applyPoseCalls (SetDevicePose es up pose act) rest

/-- The runtime activity flag of the device at ordinal `i`, as an
observation (`none` when no such device exists). -/
def deviceActiveAt (es : EngineState) (i : Nat) : Option Bool :=
  (es.state.devices.get? i).map fun d => d.is_active

/-- The state invariant behind spec invariant 3: the profile is bound, the
runtime device paths mirror the (capacity-capped) device template paths
ordinal by ordinal, and every runtime device whose template declares
`always_active` has a true activity flag. -/
def AlwaysActiveInv (P : DeviceProfile) (es : EngineState) : Prop :=
  es.profile = some P ∧
  es.state.devices.map (fun d => d.user_path) =
    (P.devices.take OX_MAX_DEVICES).map (fun d => d.user_path) ∧
  ∀ i d t, es.state.devices.get? i = some d →
    (P.devices.take OX_MAX_DEVICES).get? i = some t →
    t.always_active = true → d.is_active = true

/-! Helper lemmas about list indexing, used by the parametric claims. -/

theorem lGetSetSelf {α : Type _} :
    ∀ (l : List α) (i : Nat) (a : α), i < l.length → (l.set i a).get? i = some a
  | [], i, _, h => absurd h (Nat.not_lt_zero i)
  | _ :: _, 0, _, _ => rfl
  | _ :: xs, i + 1, a, h => lGetSetSelf xs i a (Nat.lt_of_succ_lt_succ h)

theorem lGetSetNe {α : Type _} :
    ∀ (l : List α) (i j : Nat) (a : α), i ≠ j → (l.set i a).get? j = l.get? j
  | [], _, _, _, _ => rfl
  | _ :: _, 0, 0, _, h => absurd rfl h
  | _ :: _, 0, _ + 1, _, _ => rfl
  | _ :: _, _ + 1, 0, _, _ => rfl
  | _ :: xs, i + 1, j + 1, a, h =>
    lGetSetNe xs i j a fun e => h (congrArg Nat.succ e)

theorem lLengthSet {α : Type _} :
    ∀ (l : List α) (i : Nat) (a : α), (l.set i a).length = l.length
  | [], _, _ => rfl
  | _ :: _, 0, _ => rfl
  | _ :: xs, i + 1, a => congrArg Nat.succ (lLengthSet xs i a)

theorem lGetSomeLt {α : Type _} :
    ∀ (l : List α) (i : Nat) (a : α), l.get? i = some a → i < l.length
  | [], _, _, h => absurd h (by simp)
  | _ :: _, 0, _, _ => Nat.succ_pos _
  | _ :: xs, i + 1, a, h => Nat.succ_lt_succ (lGetSomeLt xs i a h)

theorem lGetMap {α β : Type _} (f : α → β) :
    ∀ (l : List α) (i : Nat), (l.map f).get? i = (l.get? i).map f
  | [], _ => rfl
  | _ :: _, 0 => rfl
  | _ :: xs, i + 1 => lGetMap f xs i

theorem lGetTake {α : Type _} :
    ∀ (l : List α) (n i : Nat), i < n → (l.take n).get? i = l.get? i
  | [], _, _, _ => by simp
  | _ :: _, n + 1, 0, _ => rfl
  | _ :: xs, n + 1, i + 1, h => lGetTake xs n i (Nat.lt_of_succ_lt_succ h)

theorem lLtLengthGet {α : Type _} :
    ∀ (l : List α) (i : Nat), i < l.length → ∃ a, l.get? i = some a
  | [], i, h => absurd h (Nat.not_lt_zero i)
  | x :: _, 0, _ => ⟨x, rfl⟩
  | _ :: xs, i + 1, h => lLtLengthGet xs i (Nat.lt_of_succ_lt_succ h)

theorem lMapSetSame {α β : Type _} (f : α → β) :
    ∀ (l : List α) (i : Nat) (a d : α), l.get? i = some d → f a = f d →
      (l.set i a).map f = l.map f
  | [], _, _, _, h, _ => absurd h (by simp)
  | x :: xs, 0, a, d, h, hf => by
    cases h
    simp [List.set, hf]
  | x :: xs, i + 1, a, d, h, hf => by
    simp only [List.set, List.map]
    exact congrArg (f x :: ·) (lMapSetSame f xs i a d h hf)

/-! The claims. -/

/-- C1: the spec requires `SwitchDevice(profile)` to be one critical section
(semantically `Shutdown(); Initialize(profile)`) so that no concurrent
caller can observe the intermediate zero-device state.  The code instead
calls `Shutdown()` and `Initialize()` back to back, each taking and
releasing `state_mutex_` on its own (`SwitchDeviceSections` has two
entries), and the state reached after the first section — exactly what an
observer running in the released-lock window sees — reports zero devices
while three are reported before the call and three after it. -/
theorem c1_switch_device_two_lock_sections_expose_empty_state :
    (SwitchDeviceSections (some QUEST_3_PROFILE)).length = 2 ∧
    (SwitchDeviceSections (some QUEST_3_PROFILE)).foldl (fun s f => f s) esQ2 =
      (SwitchDevice esQ2 (some QUEST_3_PROFILE)).2 ∧
    (UpdateAllDevices esQ2).1 = 3 ∧
    (UpdateAllDevices (Shutdown esQ2)).1 = 0 ∧
    (UpdateAllDevices ((SwitchDevice esQ2 (some QUEST_3_PROFILE)).2)).1 = 3 := by
  refine ⟨rfl, rfl, ?_, rfl, ?_⟩ <;> decide

/-- C2 counterexample: the claim says `SwitchDevice(nullptr)` returns false
and leaves the runtime state unchanged.  On the initialized Quest-2 engine
it does return false, but the `Shutdown()` it performs first has already
destroyed the state: three runtime devices before the call, zero after. -/
theorem c2_null_switch_mutates_state_counterexample :
    (SwitchDevice esQ2 none).1 = false ∧
    esQ2.state.devices.length = 3 ∧
    (SwitchDevice esQ2 none).2.state.devices.length = 0 ∧
    (SwitchDevice esQ2 none).2 ≠ esQ2 := by
  refine ⟨rfl, ?_, rfl, ?_⟩ <;> decide

/-- C2 amended: `Initialize` with a null profile is a true no-op returning
false, but `SwitchDevice` with a null profile returns false only after
shutting the engine down — afterwards the profile is unbound and the device
and component stores are empty, regardless of the prior state. -/
theorem c2_null_profile_amended (es : EngineState) :
    SwitchDevice es none =
      (false, { profile := none, state := { devices := [], device_inputs := [] } }) ∧
    Initialize es none = (false, es) :=
  ⟨rfl, rfl⟩

/-- C9 counterexample: the claim says every registry lookup signals an
unknown name by an empty/null sentinel and never throws.
`GetDeviceProfileByName` does return the null sentinel, but
`GetDeviceTypeByName` throws `std::runtime_error` on the same unknown name
(modelled as the `Except.error` carrying the exception message). -/
theorem c9_get_device_type_by_name_throws_counterexample :
    GetDeviceProfileByName "steam_deck" = none ∧
    GetDeviceTypeByName "steam_deck" =
      Except.error "Unknown device name: steam_deck" :=
  ⟨rfl, rfl⟩

/-- C9 amended: `GetDeviceProfileByName` returns the null sentinel for every
name outside `NAME_TO_TYPE` (it never throws), and `GetDeviceProfile` is
total over the five known device types, returning the profile of the
requested type; but `GetDeviceTypeByName` THROWS
`std::runtime_error("Unknown device name: " + name)` for every unknown name
instead of returning a sentinel. -/
theorem c9_lookup_amended (name : String)
    (hn : nameToTypeFind NAME_TO_TYPE name = none) :
    GetDeviceProfileByName name = none ∧
    GetDeviceTypeByName name = Except.error ("Unknown device name: " ++ name) ∧
    ∀ t, (GetDeviceProfile t).type = t := by
  refine ⟨?_, ?_, ?_⟩
  · simp [GetDeviceProfileByName, hn]
  · simp [GetDeviceTypeByName, hn]
  · intro t
    cases t <;> rfl

/-- C9 witness: the amended statement evaluated at the concrete unknown name
"steam_deck". -/
theorem c9_lookup_amended_witness :
    nameToTypeFind NAME_TO_TYPE "steam_deck" = none ∧
    (GetDeviceProfileByName "steam_deck" = none ∧
     GetDeviceTypeByName "steam_deck" =
       Except.error ("Unknown device name: " ++ "steam_deck") ∧
     ∀ t, (GetDeviceProfile t).type = t) :=
  ⟨rfl, c9_lookup_amended "steam_deck" rfl⟩

/-- C5: the claim's concrete "oculus_quest_2" scenario.  The trigger part
holds (0.0 after Initialize, 0.7 after the float write), but the claim's
linkage part fails on the code: `OCULUS_TOUCH_COMPONENTS` declares no
`linked_vec2_path` on `/input/thumbstick/x` or `/input/thumbstick/y`, so
after `SetInputStateVec2("/user/hand/right", "/input/thumbstick",
{-0.5, 0.25})` the stored vector is updated but both axis floats still read
0.0 — not -0.5 and 0.25 as the claim states. -/
theorem c5_quest2_scenario_eval :
    GetInputStateFloat esQ2 "/user/hand/right" "/input/trigger/value" =
      (OxComponentResult.available, some 0) ∧
    GetInputStateFloat
        (SetInputStateFloat esQ2 "/user/hand/right" "/input/trigger/value" (mkRat 7 10))
        "/user/hand/right" "/input/trigger/value" =
      (OxComponentResult.available, some (mkRat 7 10)) ∧
    GetInputStateVec2
        (SetInputStateVec2 esQ2 "/user/hand/right" "/input/thumbstick" ⟨mkRat (-5) 10, mkRat 25 100⟩)
        "/user/hand/right" "/input/thumbstick" =
      (OxComponentResult.available, some ⟨mkRat (-5) 10, mkRat 25 100⟩) ∧
    GetInputStateFloat
        (SetInputStateVec2 esQ2 "/user/hand/right" "/input/thumbstick" ⟨mkRat (-5) 10, mkRat 25 100⟩)
        "/user/hand/right" "/input/thumbstick/x" =
      (OxComponentResult.available, some 0) ∧
    GetInputStateFloat
        (SetInputStateVec2 esQ2 "/user/hand/right" "/input/thumbstick" ⟨mkRat (-5) 10, mkRat 25 100⟩)
        "/user/hand/right" "/input/thumbstick/y" =
      (OxComponentResult.available, some 0) := by
  refine ⟨?_, ?_, ?_, ?_, ?_⟩ <;> decide

/-- C6: the spec requires linked-axis propagation to run inside the same
critical section as the triggering write.  `SetInputStateFloat` instead
executes two separate lock sections (`SetInputStateFloatSections` has two
entries): the templated write releases `state_mutex_` before
`SyncLinkedVec2FromFloat` re-acquires it.  On a linkage-declaring profile,
the state after the first section — observable while the lock is free —
already shows the float write (0.7) but still the unsynchronized vector
(0,0); only after the second section does the vector read (0.7, 0). -/
theorem c6_float_write_sync_two_lock_sections :
    (SetInputStateFloatSections "/user/hand/right" "/input/thumbstick/x" (mkRat 7 10)).length
      = 2 ∧
    (SetInputStateFloatSections "/user/hand/right" "/input/thumbstick/x" (mkRat 7 10)).foldl
        (fun s f => f s) esL =
      SetInputStateFloat esL "/user/hand/right" "/input/thumbstick/x" (mkRat 7 10) ∧
    GetInputStateFloat
        (SetInputStateFloatCS esL "/user/hand/right" "/input/thumbstick/x" (mkRat 7 10))
        "/user/hand/right" "/input/thumbstick/x" =
      (OxComponentResult.available, some (mkRat 7 10)) ∧
    GetInputStateVec2
        (SetInputStateFloatCS esL "/user/hand/right" "/input/thumbstick/x" (mkRat 7 10))
        "/user/hand/right" "/input/thumbstick" =
      (OxComponentResult.available, some ⟨0, 0⟩) ∧
    GetInputStateVec2
        (SetInputStateFloat esL "/user/hand/right" "/input/thumbstick/x" (mkRat 7 10))
        "/user/hand/right" "/input/thumbstick" =
      (OxComponentResult.available, some ⟨mkRat 7 10, 0⟩) := by
  refine ⟨rfl, rfl, ?_, ?_, ?_⟩ <;> decide

/-- C7: for every registry profile P and every device template D of P,
immediately after `Initialize(P)` (from any prior engine state),
`GetDevicePose(D.path)` succeeds and returns D's default pose with an active
flag equal to D's `always_active`, and the component store holds exactly the
kind-zero value (`false` / 0.0 / (0,0)) for every component of every
device. -/
theorem c7_initialize_defaults (P : DeviceProfile) (D : DeviceDef)
    (hP : P ∈ REGISTRY_PROFILES) (hD : D ∈ P.devices) (es0 : EngineState) :
    GetDevicePose (Initialize es0 (some P)).2 D.user_path =
      some (D.default_pose, D.always_active) ∧
    (Initialize es0 (some P)).2.state.device_inputs =
      P.devices.map (fun d => { values := d.components.map fun c => zeroValue c.type }) := by
  have hinit : Initialize es0 (some P) = Initialize emptyEngine (some P) := rfl
  rw [hinit]
  simp only [REGISTRY_PROFILES, List.mem_cons, List.not_mem_nil, or_false] at hP
  rcases hP with rfl | rfl | rfl | rfl | rfl
  · simp only [QUEST_2_PROFILE, List.mem_cons, List.not_mem_nil, or_false] at hD
    rcases hD with rfl | rfl | rfl <;> exact ⟨by decide, by decide⟩
  · simp only [QUEST_3_PROFILE, List.mem_cons, List.not_mem_nil, or_false] at hD
    rcases hD with rfl | rfl | rfl <;> exact ⟨by decide, by decide⟩
  · simp only [VIVE_PROFILE, List.mem_cons, List.not_mem_nil, or_false] at hD
    rcases hD with rfl | rfl | rfl <;> exact ⟨by decide, by decide⟩
  · simp only [INDEX_PROFILE, List.mem_cons, List.not_mem_nil, or_false] at hD
    rcases hD with rfl | rfl | rfl <;> exact ⟨by decide, by decide⟩
  · simp only [VIVE_TRACKER_PROFILE, List.mem_cons, List.not_mem_nil, or_false] at hD
    rcases hD with rfl | rfl | rfl | rfl | rfl <;> exact ⟨by decide, by decide⟩

/-- C7 witness: the theorem applied to the Quest-2 profile and its head
device. -/
theorem c7_initialize_defaults_witness :
    QUEST_2_PROFILE ∈ REGISTRY_PROFILES ∧
    (⟨"/user/head", "hmd", true, true, ⟨⟨0, mkRat 16 10, 0⟩, IDENTITY_QUAT⟩, []⟩ :
        DeviceDef) ∈ QUEST_2_PROFILE.devices ∧
    (GetDevicePose (Initialize emptyEngine (some QUEST_2_PROFILE)).2 "/user/head" =
        some (⟨⟨0, mkRat 16 10, 0⟩, IDENTITY_QUAT⟩, true) ∧
      (Initialize emptyEngine (some QUEST_2_PROFILE)).2.state.device_inputs =
        QUEST_2_PROFILE.devices.map
          (fun d => { values := d.components.map fun c => zeroValue c.type })) :=
  ⟨by decide, by decide,
    c7_initialize_defaults QUEST_2_PROFILE
      ⟨"/user/head", "hmd", true, true, ⟨⟨0, mkRat 16 10, 0⟩, IDENTITY_QUAT⟩, []⟩
      (by decide) (by decide) emptyEngine⟩

/-- Specification of the `FindDeviceIndexByUserPath` loop: a found index
points at the first device whose stored path matches. -/
theorem findDeviceIdxAux_spec (up : String) :
    ∀ (l : List OxDeviceState) (s i : Nat), findDeviceIdxAux up l s = some i →
      ∃ d, s ≤ i ∧ l.get? (i - s) = some d ∧ d.user_path = up ∧
        ∀ k d', k < i - s → l.get? k = some d' → d'.user_path ≠ up := by
  intro l
  induction l with
  | nil =>
    intro s i h
    exact absurd h (by simp [findDeviceIdxAux])
  | cons c rest ih =>
    intro s i h
    by_cases hc : c.user_path = up
    · simp only [findDeviceIdxAux, if_pos hc, Option.some.injEq] at h
      subst h
      refine ⟨c, Nat.le_refl s, ?_, hc, ?_⟩
      · rw [Nat.sub_self]
        rfl
      · intro k d' hk
        rw [Nat.sub_self] at hk
        exact absurd hk (Nat.not_lt_zero k)
    · simp only [findDeviceIdxAux, if_neg hc] at h
      obtain ⟨d, hs, hget, hpath, hmin⟩ := ih (s + 1) i h
      have hsub : i - s = (i - (s + 1)) + 1 := by omega
      refine ⟨d, by omega, ?_, hpath, ?_⟩
      · rw [hsub]
        exact hget
      · intro k d' hk hgd
        match k, hgd with
        | 0, hgd =>
          cases hgd
          exact hc
        | k + 1, hgd =>
          refine hmin k d' ?_ hgd
          omega

/-- The `FindDeviceDefByUserPath` loop returns the template at index `i`
when that template matches and no earlier one does. -/
theorem findDeviceDefAux_first (up : String) :
    ∀ (l : List DeviceDef) (i : Nat) (t : DeviceDef),
      l.get? i = some t → t.user_path = up →
      (∀ k d', k < i → l.get? k = some d' → d'.user_path ≠ up) →
      findDeviceDefAux up l = some t := by
  intro l
  induction l with
  | nil =>
    intro i t h
    exact absurd h (by simp)
  | cons c rest ih =>
    intro i t hget hpath hmin
    match i, hget with
    | 0, hget =>
      cases hget
      simp [findDeviceDefAux, if_pos hpath, hpath]
    | i + 1, hget =>
      have hc : c.user_path ≠ up := hmin 0 c (Nat.succ_pos i) rfl
      simp only [findDeviceDefAux, if_neg hc]
      exact ih i t hget hpath fun k d' hk hgd => hmin (k + 1) d' (Nat.succ_lt_succ hk) hgd

/-- `SetDevicePose` preserves `AlwaysActiveInv`: the written activity flag
is forced true whenever the resolved template declares `always_active`, and
no other slot changes. -/
theorem setDevicePose_alwaysActiveInv (P : DeviceProfile) (es : EngineState)
    (up : String) (pose : OxPose) (act : Bool) (h : AlwaysActiveInv P es) :
    AlwaysActiveInv P (SetDevicePose es up pose act) := by
  obtain ⟨hp, hpaths, hact⟩ := h
  have hpathsAt : ∀ k, (es.state.devices.get? k).map (fun d => d.user_path) =
      ((P.devices.take OX_MAX_DEVICES).get? k).map (fun d => d.user_path) := by
    intro k
    rw [← lGetMap, ← lGetMap, hpaths]
  cases hidx : FindDeviceIndexByUserPath es.state up with
  | none =>
    simp only [SetDevicePose, hidx]
    exact ⟨hp, hpaths, hact⟩
  | some i =>
    cases hget : es.state.devices.get? i with
    | none =>
      simp only [SetDevicePose, hidx, hget]
      exact ⟨hp, hpaths, hact⟩
    | some d =>
      simp only [SetDevicePose, hidx, hget]
      refine ⟨hp, ?_, ?_⟩
      · have hmapset := lMapSetSame (fun x : OxDeviceState => x.user_path)
          es.state.devices i
          ({ user_path := d.user_path
             is_active :=
               if (match FindDeviceDefByUserPath es.profile up with
                 | some dd => dd.always_active
                 | none => false) = true then true else act
             pose := pose } : OxDeviceState) d hget rfl
        exact hmapset.trans hpaths
      · intro j dj tj hj htj hta
        by_cases hij : i = j
        · subst hij
          have hlen : i < es.state.devices.length := lGetSomeLt _ i d hget
          rw [lGetSetSelf es.state.devices i _ hlen] at hj
          obtain ⟨dfound, _, hgetf, hpathf, hminf⟩ :=
            findDeviceIdxAux_spec up es.state.devices 0 i hidx
          rw [Nat.sub_zero] at hgetf hminf
          rw [hget] at hgetf
          cases hgetf
          have hcapLen : i < (P.devices.take OX_MAX_DEVICES).length :=
            lGetSomeLt _ i tj htj
          have hcapBound : i < OX_MAX_DEVICES := by
            have := List.length_take OX_MAX_DEVICES P.devices
            omega
          have htjPath : tj.user_path = up := by
            have := hpathsAt i
            rw [hget, htj] at this
            simp only [Option.map_some'] at this
            rw [← (Option.some.injEq _ _).mp this]
            exact hpathf
          have hfull : P.devices.get? i = some tj := by
            rw [← lGetTake P.devices OX_MAX_DEVICES i hcapBound]
            exact htj
          have hmindef : ∀ k d', k < i → P.devices.get? k = some d' →
              d'.user_path ≠ up := by
            intro k d' hk hgd
            have hkBound : k < OX_MAX_DEVICES := by omega
            have hcapk : (P.devices.take OX_MAX_DEVICES).get? k = some d' := by
              rw [lGetTake P.devices OX_MAX_DEVICES k hkBound]
              exact hgd
            have hmapk := hpathsAt k
            rw [hcapk] at hmapk
            cases hdevk : es.state.devices.get? k with
            | none =>
              rw [hdevk] at hmapk
              exact absurd hmapk (by simp)
            | some dk =>
              rw [hdevk] at hmapk
              simp only [Option.map_some', Option.some.injEq] at hmapk
              rw [← hmapk]
              exact hminf k dk hk hdevk
          have hdef : findDeviceDefAux up P.devices = some tj :=
            findDeviceDefAux_first up P.devices i tj hfull htjPath hmindef
          cases hj
          simp [hp, FindDeviceDefByUserPath, hdef, hta]
        · rw [lGetSetNe es.state.devices i j _ hij] at hj
          exact hact j dj tj hj htj hta

/-- A sequence of `SetDevicePose` calls preserves `AlwaysActiveInv`. -/
theorem applyPoseCalls_alwaysActiveInv (P : DeviceProfile) :
    ∀ (calls : List (String × OxPose × Bool)) (es : EngineState),
      AlwaysActiveInv P es → AlwaysActiveInv P (applyPoseCalls es calls)
  | [], _, h => h
  | (up, pose, act) :: rest, es, h =>
    applyPoseCalls_alwaysActiveInv P rest _
      (setDevicePose_alwaysActiveInv P es up pose act h)

/-- `Initialize` establishes `AlwaysActiveInv`. -/
theorem initialize_alwaysActiveInv (P : DeviceProfile) (es0 : EngineState) :
    AlwaysActiveInv P (Initialize es0 (some P)).2 := by
  have hdevs : (Initialize es0 (some P)).2.state.devices =
      (P.devices.take OX_MAX_DEVICES).map
        (fun dd =>
          ({ user_path := dd.user_path, is_active := dd.always_active,
             pose := dd.default_pose } : OxDeviceState)) := rfl
  refine ⟨rfl, ?_, ?_⟩
  · rw [hdevs, List.map_map]
    rfl
  · intro i d t hd ht hta
    have hmap := lGetMap
      (fun dd : DeviceDef =>
        ({ user_path := dd.user_path, is_active := dd.always_active,
           pose := dd.default_pose } : OxDeviceState))
      (P.devices.take OX_MAX_DEVICES) i
    rw [ht] at hmap
    rw [hdevs, hmap] at hd
    simp only [Option.map_some', Option.some.injEq] at hd
    rw [← hd]
    exact hta

/-- C8: for every device template declaring `always_active`, the
corresponding runtime device's activity flag is true right after
`Initialize` (the empty call list) and stays true across every sequence of
`SetDevicePose` calls — including calls passing `is_active = false` for that
very device — because `SetDevicePose` forces the stored flag to true
whenever the resolved template is `always_active`. -/
theorem c8_always_active_permanent (P : DeviceProfile)
    (calls : List (String × OxPose × Bool)) (es0 : EngineState) (i : Nat)
    (t : DeviceDef) (ht : (P.devices.take OX_MAX_DEVICES).get? i = some t)
    (ha : t.always_active = true) :
    deviceActiveAt (applyPoseCalls (Initialize es0 (some P)).2 calls) i =
      some true := by
  obtain ⟨hp, hpaths, hact⟩ :=
    applyPoseCalls_alwaysActiveInv P calls _ (initialize_alwaysActiveInv P es0)
  have hi : i < (P.devices.take OX_MAX_DEVICES).length := lGetSomeLt _ i t ht
  have hlen : (applyPoseCalls (Initialize es0 (some P)).2 calls).state.devices.length =
      (P.devices.take OX_MAX_DEVICES).length := by
    have hlenMap := congrArg List.length hpaths
    simpa using hlenMap
  obtain ⟨d, hd⟩ := lLtLengthGet
    (applyPoseCalls (Initialize es0 (some P)).2 calls).state.devices i (by omega)
  have hda : d.is_active = true := hact i d t hd ht ha
  rw [deviceActiveAt, hd]
  simp [hda]

/-- C8 witness: on the Quest-2 profile, the head device (template ordinal 0,
`always_active = true`) still reports an active flag of true after
`SetDevicePose("/user/head", default pose, false)`. -/
theorem c8_always_active_permanent_witness :
    (QUEST_2_PROFILE.devices.take OX_MAX_DEVICES).get? 0 =
      some ⟨"/user/head", "hmd", true, true, ⟨⟨0, mkRat 16 10, 0⟩, IDENTITY_QUAT⟩, []⟩ ∧
    (⟨"/user/head", "hmd", true, true, ⟨⟨0, mkRat 16 10, 0⟩, IDENTITY_QUAT⟩, []⟩ :
        DeviceDef).always_active = true ∧
    deviceActiveAt
      (applyPoseCalls (Initialize emptyEngine (some QUEST_2_PROFILE)).2
        [("/user/head", ⟨⟨0, mkRat 16 10, 0⟩, IDENTITY_QUAT⟩, false)]) 0 =
      some true :=
  ⟨by decide, by decide,
    c8_always_active_permanent QUEST_2_PROFILE
      [("/user/head", ⟨⟨0, mkRat 16 10, 0⟩, IDENTITY_QUAT⟩, false)] emptyEngine 0
      ⟨"/user/head", "hmd", true, true, ⟨⟨0, mkRat 16 10, 0⟩, IDENTITY_QUAT⟩, []⟩
      (by decide) (by decide)⟩

/-- Specification of the `FindComponentInfo` loop: a found ordinal points at
the first component whose path matches, and the `src_def` search of
`SyncLinkedVec2FromFloat` finds that same component. -/
theorem findComponentAux_spec (cp : String) :
    ∀ (comps : List ComponentDef) (s i : Nat) (ct : ComponentType),
      findComponentAux cp comps s = some (i, ct) →
      ∃ c, s ≤ i ∧ comps.get? (i - s) = some c ∧ c.path = cp ∧ c.type = ct ∧
        findComponentDefAux cp comps = some c := by
  intro comps
  induction comps with
  | nil =>
    intro s i ct h
    exact absurd h (by simp [findComponentAux])
  | cons c rest ih =>
    intro s i ct h
    by_cases hc : c.path = cp
    · simp only [findComponentAux, if_pos hc, Option.some.injEq, Prod.mk.injEq] at h
      obtain ⟨hsi, hct⟩ := h
      subst hsi
      subst hct
      refine ⟨c, Nat.le_refl s, ?_, hc, rfl, ?_⟩
      · rw [Nat.sub_self]
        rfl
      · simp [findComponentDefAux, if_pos hc]
    · simp only [findComponentAux, if_neg hc] at h
      obtain ⟨d, hs, hget, hpath, htype, hdef⟩ := ih (s + 1) i ct h
      have hsub : i - s = (i - (s + 1)) + 1 := by omega
      refine ⟨d, by omega, ?_, hpath, htype, ?_⟩
      · rw [hsub]
        exact hget
      · simp [findComponentDefAux, if_neg hc, hdef]

/-- `FindComponentInfo` result unpacked: the component at the returned
ordinal has the searched path and the returned type, and it is the one the
sync helper's own search finds. -/
theorem findComponentInfo_spec (dd : DeviceDef) (cp : String) (i : Nat)
    (ct : ComponentType) (h : FindComponentInfo dd cp = some (i, ct)) :
    ∃ c, dd.components.get? i = some c ∧ c.path = cp ∧ c.type = ct ∧
      findDeviceDefComponent dd cp = some c := by
  obtain ⟨c, _, hget, hpath, htype, hdef⟩ :=
    findComponentAux_spec cp dd.components 0 i ct h
  rw [Nat.sub_zero] at hget
  exact ⟨c, hget, hpath, htype, hdef⟩

/-- Building `ValidateDeviceAndComponent` from its three resolution
results. -/
theorem validate_of_parts (es : EngineState) (up cp : String) (di ci : Nat)
    (ct : ComponentType) (dd : DeviceDef)
    (hidx : FindDeviceIndexByUserPath es.state up = some di)
    (hdd : FindDeviceDefByUserPath es.profile up = some dd)
    (hinfo : FindComponentInfo dd cp = some (ci, ct)) :
    ValidateDeviceAndComponent es up cp = some (di, ci, ct) := by
  simp [ValidateDeviceAndComponent, hidx, hdd, hinfo]

/-- `writeValue` never touches the bound profile. -/
theorem writeValue_profile (es : EngineState) (di ci : Nat) (v : InputValue) :
    (writeValue es di ci v).profile = es.profile := by
  unfold writeValue
  cases h : es.state.device_inputs.get? di <;> rfl

/-- `writeValue` never touches the pose/activity records. -/
theorem writeValue_devices (es : EngineState) (di ci : Nat) (v : InputValue) :
    (writeValue es di ci v).state.devices = es.state.devices := by
  unfold writeValue
  cases h : es.state.device_inputs.get? di <;> rfl

/-- The component store after a `writeValue` at a resolved device slot. -/
theorem writeValue_inputs (es : EngineState) (di ci : Nat) (v : InputValue)
    (inp : DeviceInputState) (hdi : es.state.device_inputs.get? di = some inp) :
    (writeValue es di ci v).state.device_inputs =
      es.state.device_inputs.set di { values := inp.values.set ci v } := by
  unfold writeValue
  rw [hdi]

/-- Reading back the slot a `writeValue` just wrote. -/
theorem readValue_writeValue_self (es : EngineState) (di ci : Nat)
    (v : InputValue) (inp : DeviceInputState)
    (hdi : es.state.device_inputs.get? di = some inp)
    (hci : ci < inp.values.length) :
    readValue (writeValue es di ci v) di ci = some v := by
  have h1 : (writeValue es di ci v).state.device_inputs.get? di =
      some { values := inp.values.set ci v } := by
    rw [writeValue_inputs es di ci v inp hdi]
    exact lGetSetSelf _ di _ (lGetSomeLt _ di inp hdi)
  simp only [readValue, h1]
  exact lGetSetSelf inp.values ci v hci

/-- Reading an untouched component ordinal after a `writeValue` on the same
device. -/
theorem readValue_writeValue_other (es : EngineState) (di ci cj : Nat)
    (v : InputValue) (inp : DeviceInputState)
    (hdi : es.state.device_inputs.get? di = some inp) (hne : ci ≠ cj) :
    readValue (writeValue es di ci v) di cj = inp.values.get? cj := by
  have h1 : (writeValue es di ci v).state.device_inputs.get? di =
      some { values := inp.values.set ci v } := by
    rw [writeValue_inputs es di ci v inp hdi]
    exact lGetSetSelf _ di _ (lGetSomeLt _ di inp hdi)
  simp only [readValue, h1]
  exact lGetSetNe inp.values ci cj v hne

/-- `SyncLinkedVec2FromFloat` is a no-op whenever the written component's
definition is not FLOAT-typed (the C++ `src_def->type != FLOAT` early
return, or one of the earlier linkage-missing returns). -/
theorem syncLinkedVec2FromFloat_nonfloat (es : EngineState) (up cp : String)
    (dd : DeviceDef) (src : ComponentDef)
    (hdd : FindDeviceDefByUserPath es.profile up = some dd)
    (hsrc : findDeviceDefComponent dd cp = some src)
    (hty : src.type ≠ ComponentType.FLOAT) :
    SyncLinkedVec2FromFloat es up cp = es := by
  simp only [SyncLinkedVec2FromFloat, hdd, hsrc]
  cases hlp : src.linked_vec2_path with
  | none => rfl
  | some lp =>
    by_cases hax : src.linked_axis = Vec2Axis.NONE
    · simp [hax]
    · simp [hax, hty]

/-- `SyncLinkedFloatsFromVec2` is a no-op whenever the written component's
declared type is not VEC2. -/
theorem syncLinkedFloatsFromVec2_nonvec2 (es : EngineState) (up cp : String)
    (dd : DeviceDef) (ci : Nat) (ct : ComponentType)
    (hdd : FindDeviceDefByUserPath es.profile up = some dd)
    (hinfo : FindComponentInfo dd cp = some (ci, ct))
    (hct : ct ≠ ComponentType.VEC2) :
    SyncLinkedFloatsFromVec2 es up cp = es := by
  simp only [SyncLinkedFloatsFromVec2, hdd]
  cases hidx : FindDeviceIndexByUserPath es.state up with
  | none => rfl
  | some di => simp [hinfo, hct]

/-- Slots below the running index are untouched by the
`SyncLinkedFloatsFromVec2` update loop. -/
theorem syncFloatsAux_get_lt (cp : String) (w : OxVector2f) :
    ∀ (comps : List ComponentDef) (idx : Nat) (values : List InputValue)
      (j : Nat), j < idx →
      (syncFloatsAux cp w comps idx values).get? j = values.get? j := by
  intro comps
  induction comps with
  | nil =>
    intro idx values j hj
    rfl
  | cons c rest ih =>
    intro idx values j hj
    simp only [syncFloatsAux]
    by_cases hc : linksToVec2 c cp = true
    · rw [if_pos hc, ih (idx + 1) _ j (by omega)]
      exact lGetSetNe values idx j _ (by omega)
    · rw [if_neg hc]
      exact ih (idx + 1) values j (by omega)

/-- The `SyncLinkedFloatsFromVec2` update loop writes the matching axis of
`w` into every linked FLOAT slot. -/
theorem syncFloatsAux_get_linked (cp : String) (w : OxVector2f) :
    ∀ (comps : List ComponentDef) (idx : Nat) (values : List InputValue)
      (j : Nat) (fc : ComponentDef),
      comps.get? j = some fc → linksToVec2 fc cp = true →
      idx + j < values.length →
      (syncFloatsAux cp w comps idx values).get? (idx + j) =
        some (InputValue.f (if fc.linked_axis = Vec2Axis.X then w.x else w.y)) := by
  intro comps
  induction comps with
  | nil =>
    intro idx values j fc h
    exact absurd h (by simp)
  | cons c rest ih =>
    intro idx values j fc hget hlink hbound
    simp only [syncFloatsAux]
    match j, hget, hbound with
    | 0, hget, hbound =>
      cases hget
      rw [if_pos hlink]
      have h1 := syncFloatsAux_get_lt cp w rest (idx + 1)
        (values.set idx
          (InputValue.f (if c.linked_axis = Vec2Axis.X then w.x else w.y)))
        idx (Nat.lt_succ_self idx)
      exact h1.trans (lGetSetSelf values idx _ (by omega))
    | j + 1, hget, hbound =>
      have hstep : idx + (j + 1) = (idx + 1) + j := by omega
      by_cases hc : linksToVec2 c cp = true
      · rw [if_pos hc, hstep]
        refine ih (idx + 1) _ j fc hget hlink ?_
        rw [lLengthSet]
        omega
      · rw [if_neg hc, hstep]
        exact ih (idx + 1) values j fc hget hlink (by omega)

/-- C4: the propagation invariant of the Linked-Axis Synchronizer.  For a
device `up` of the active profile with a FLOAT component (path `fPath`)
declaring linkage to a VEC2 component (path `vPath`) on the same device:
after a successful `SetInputStateFloat(up, fPath, v)` the declared axis of
the stored vector equals `v`, and after a successful
`SetInputStateVec2(up, vPath, value)` every FLOAT component of the device
declaring linkage to `vPath` stores the corresponding axis of `value`. -/
theorem c4_linked_axis_propagation (es : EngineState) (up fPath vPath : String)
    (dd : DeviceDef) (src : ComponentDef) (di fi vi : Nat)
    (inp : DeviceInputState) (w : OxVector2f)
    (hidx : FindDeviceIndexByUserPath es.state up = some di)
    (hdd : FindDeviceDefByUserPath es.profile up = some dd)
    (hsrc : findDeviceDefComponent dd fPath = some src)
    (hlp : src.linked_vec2_path = some vPath)
    (hax : src.linked_axis ≠ Vec2Axis.NONE)
    (hfin : FindComponentInfo dd fPath = some (fi, ComponentType.FLOAT))
    (hvin : FindComponentInfo dd vPath = some (vi, ComponentType.VEC2))
    (hdi : es.state.device_inputs.get? di = some inp)
    (hfi : fi < inp.values.length)
    (hvv : inp.values.get? vi = some (InputValue.v2 w)) :
    (∀ v : ℚ, ∃ w2 : OxVector2f,
      readValue (SetInputStateFloat es up fPath v) di vi =
        some (InputValue.v2 w2) ∧
      (if src.linked_axis = Vec2Axis.X then w2.x else w2.y) = v) ∧
    (∀ (value : OxVector2f) (fj : Nat) (fc : ComponentDef),
      dd.components.get? fj = some fc → fc.type = ComponentType.FLOAT →
      fc.linked_vec2_path = some vPath → fc.linked_axis ≠ Vec2Axis.NONE →
      fj < inp.values.length →
      readValue (SetInputStateVec2 es up vPath value) di fj =
        some (InputValue.f
          (if fc.linked_axis = Vec2Axis.X then value.x else value.y))) := by
  have hsrcT : src.type = ComponentType.FLOAT := by
    obtain ⟨c, _, _, htype, hdef⟩ := findComponentInfo_spec dd fPath fi _ hfin
    rw [hsrc] at hdef
    cases hdef
    exact htype
  have hfne : fi ≠ vi := by
    obtain ⟨cf, hcf, _, hcft, _⟩ := findComponentInfo_spec dd fPath fi _ hfin
    obtain ⟨cv, hcv, _, hcvt, _⟩ := findComponentInfo_spec dd vPath vi _ hvin
    intro he
    rw [he, hcv] at hcf
    cases hcf
    rw [hcft] at hcvt
    exact absurd hcvt (by decide)
  have hvilen : vi < inp.values.length := lGetSomeLt _ vi _ hvv
  constructor
  · intro v
    have hcs : SetInputStateFloatCS es up fPath v =
        writeValue es di fi (InputValue.f v) := by
      simp [SetInputStateFloatCS,
        validate_of_parts es up fPath di fi ComponentType.FLOAT dd hidx hdd hfin]
    have hdi1 : (writeValue es di fi (InputValue.f v)).state.device_inputs.get? di =
        some { values := inp.values.set fi (InputValue.f v) } := by
      rw [writeValue_inputs es di fi _ inp hdi]
      exact lGetSetSelf _ di _ (lGetSomeLt _ di inp hdi)
    have hdd1 : FindDeviceDefByUserPath
        (writeValue es di fi (InputValue.f v)).profile up = some dd := by
      rw [writeValue_profile]
      exact hdd
    have hidx1 : FindDeviceIndexByUserPath
        (writeValue es di fi (InputValue.f v)).state up = some di := by
      unfold FindDeviceIndexByUserPath
      rw [writeValue_devices]
      exact hidx
    have hrv1 : readValue (writeValue es di fi (InputValue.f v)) di fi =
        some (InputValue.f v) :=
      readValue_writeValue_self es di fi _ inp hdi hfi
    have hrv2 : readValue (writeValue es di fi (InputValue.f v)) di vi =
        some (InputValue.v2 w) := by
      rw [readValue_writeValue_other es di fi vi _ inp hdi hfne]
      exact hvv
    have hsync : SetInputStateFloat es up fPath v =
        writeValue (writeValue es di fi (InputValue.f v)) di vi
          (InputValue.v2
            (if src.linked_axis = Vec2Axis.X then { w with x := v }
             else { w with y := v })) := by
      rw [SetInputStateFloat, hcs]
      simp only [SyncLinkedVec2FromFloat, hdd1, hsrc, hlp, hidx1, hfin, hrv1,
        hvin, hrv2, hsrcT]
      simp [hax]
    refine ⟨if src.linked_axis = Vec2Axis.X then { w with x := v }
      else { w with y := v }, ?_, ?_⟩
    · rw [hsync]
      refine readValue_writeValue_self _ di vi _ _ hdi1 ?_
      rw [lLengthSet]
      exact hvilen
    · by_cases hX : src.linked_axis = Vec2Axis.X <;> simp [hX]
  · intro value fj fc hfc hfct hfclp hfcax hfjlen
    have hcs : SetInputStateVec2CS es up vPath value =
        writeValue es di vi (InputValue.v2 value) := by
      simp [SetInputStateVec2CS,
        validate_of_parts es up vPath di vi ComponentType.VEC2 dd hidx hdd hvin]
    have hdi1 : (writeValue es di vi (InputValue.v2 value)).state.device_inputs.get? di =
        some { values := inp.values.set vi (InputValue.v2 value) } := by
      rw [writeValue_inputs es di vi _ inp hdi]
      exact lGetSetSelf _ di _ (lGetSomeLt _ di inp hdi)
    have hdd1 : FindDeviceDefByUserPath
        (writeValue es di vi (InputValue.v2 value)).profile up = some dd := by
      rw [writeValue_profile]
      exact hdd
    have hidx1 : FindDeviceIndexByUserPath
        (writeValue es di vi (InputValue.v2 value)).state up = some di := by
      unfold FindDeviceIndexByUserPath
      rw [writeValue_devices]
      exact hidx
    have hrv : readValue (writeValue es di vi (InputValue.v2 value)) di vi =
        some (InputValue.v2 value) :=
      readValue_writeValue_self es di vi _ inp hdi hvilen
    have hlink : linksToVec2 fc vPath = true := by
      simp [linksToVec2, hfct, hfclp, hfcax]
    have hsync : SetInputStateVec2 es up vPath value =
        { writeValue es di vi (InputValue.v2 value) with state :=
            { (writeValue es di vi (InputValue.v2 value)).state with
                device_inputs :=
                  (writeValue es di vi (InputValue.v2 value)).state.device_inputs.set di
                    (DeviceInputState.mk (syncFloatsAux vPath value dd.components 0
                      (inp.values.set vi (InputValue.v2 value)))) } } := by
      rw [SetInputStateVec2, hcs]
      simp only [SyncLinkedFloatsFromVec2, hdd1, hidx1, hvin, hrv, hdi1]
      simp
    rw [hsync]
    have hget2 : ((writeValue es di vi (InputValue.v2 value)).state.device_inputs.set di
        (DeviceInputState.mk (syncFloatsAux vPath value dd.components 0
          (inp.values.set vi (InputValue.v2 value))))).get? di =
        some (DeviceInputState.mk (syncFloatsAux vPath value dd.components 0
          (inp.values.set vi (InputValue.v2 value)))) := by
      refine lGetSetSelf _ di _ ?_
      exact lGetSomeLt _ di _ hdi1
    simp only [readValue, hget2]
    have hres := syncFloatsAux_get_linked vPath value dd.components 0
      (inp.values.set vi (InputValue.v2 value)) fj fc hfc hlink
      (by rw [lLengthSet]; omega)
    rw [Nat.zero_add] at hres
    exact hres

/-- C4 witness: the propagation theorem applied to the linkage-declaring
test profile, writing 0.7 to the X-axis float and reading it back from the
stored vector. -/
theorem c4_linked_axis_propagation_witness :
    FindDeviceIndexByUserPath esL.state "/user/hand/right" = some 0 ∧
    FindDeviceDefByUserPath esL.profile "/user/hand/right" =
      some LINKED_DEVICE_DEF ∧
    findDeviceDefComponent LINKED_DEVICE_DEF "/input/thumbstick/x" =
      some LINKED_X_DEF ∧
    LINKED_X_DEF.linked_vec2_path = some "/input/thumbstick" ∧
    LINKED_X_DEF.linked_axis ≠ Vec2Axis.NONE ∧
    FindComponentInfo LINKED_DEVICE_DEF "/input/thumbstick/x" =
      some (1, ComponentType.FLOAT) ∧
    FindComponentInfo LINKED_DEVICE_DEF "/input/thumbstick" =
      some (0, ComponentType.VEC2) ∧
    esL.state.device_inputs.get? 0 = some (DeviceInputState.mk
      [InputValue.v2 ⟨0, 0⟩, InputValue.f 0, InputValue.f 0]) ∧
    (1 : Nat) <
      [InputValue.v2 (⟨0, 0⟩ : OxVector2f), InputValue.f 0, InputValue.f 0].length ∧
    [InputValue.v2 (⟨0, 0⟩ : OxVector2f), InputValue.f 0, InputValue.f 0].get? 0 =
      some (InputValue.v2 ⟨0, 0⟩) ∧
    (∃ w2 : OxVector2f,
      readValue (SetInputStateFloat esL "/user/hand/right" "/input/thumbstick/x"
        (mkRat 7 10)) 0 0 = some (InputValue.v2 w2) ∧
      (if LINKED_X_DEF.linked_axis = Vec2Axis.X then w2.x else w2.y) = mkRat 7 10) :=
  ⟨by decide, by decide, by decide, by decide, by decide, by decide, by decide,
    by decide, by decide, by decide,
    (c4_linked_axis_propagation esL "/user/hand/right" "/input/thumbstick/x"
      "/input/thumbstick" LINKED_DEVICE_DEF LINKED_X_DEF 0 1 0
      (DeviceInputState.mk [InputValue.v2 ⟨0, 0⟩, InputValue.f 0, InputValue.f 0])
      ⟨0, 0⟩ (by decide) (by decide) (by decide) (by decide) (by decide)
      (by decide) (by decide) (by decide) (by decide) (by decide)).1 (mkRat 7 10)⟩

/-- C10: the coercion policy the code actually implements.  For a resolved
device and component: a Boolean-declared component read through the Float
accessor yields `available` with 1.0/0.0; a Float-declared component read
through the Boolean accessor yields `available` with the `>= 0.5` threshold;
`SetInputStateFloat` on a Boolean-declared component stores the
threshold-coerced bool; `SetInputStateBoolean` on a Float-declared component
stores 1.0/0.0 — the stored tag always staying the declared kind — and only
mismatches involving VEC2 return `OX_COMPONENT_UNAVAILABLE` (reads) or leave
the state unchanged (writes). -/
theorem c10_coercion_policy (es : EngineState) (up cp : String) (di ci : Nat)
    (dd : DeviceDef)
    (hidx : FindDeviceIndexByUserPath es.state up = some di)
    (hdd : FindDeviceDefByUserPath es.profile up = some dd) :
    (∀ b : Bool, FindComponentInfo dd cp = some (ci, ComponentType.BOOLEAN) →
      readValue es di ci = some (InputValue.b b) →
      GetInputStateFloat es up cp =
        (OxComponentResult.available, some (if b then 1 else 0))) ∧
    (∀ x : ℚ, FindComponentInfo dd cp = some (ci, ComponentType.FLOAT) →
      readValue es di ci = some (InputValue.f x) →
      GetInputStateBoolean es up cp =
        (OxComponentResult.available,
          some (if mkRat 1 2 ≤ x then true else false))) ∧
    (∀ (v : ℚ) (inp : DeviceInputState),
      FindComponentInfo dd cp = some (ci, ComponentType.BOOLEAN) →
      es.state.device_inputs.get? di = some inp → ci < inp.values.length →
      readValue (SetInputStateFloat es up cp v) di ci =
        some (InputValue.b (if mkRat 1 2 ≤ v then true else false))) ∧
    (∀ (b : Bool) (inp : DeviceInputState),
      FindComponentInfo dd cp = some (ci, ComponentType.FLOAT) →
      es.state.device_inputs.get? di = some inp → ci < inp.values.length →
      readValue (SetInputStateBoolean es up cp b) di ci =
        some (InputValue.f (if b then 1 else 0))) ∧
    (FindComponentInfo dd cp = some (ci, ComponentType.VEC2) →
      GetInputStateFloat es up cp = (OxComponentResult.unavailable, none) ∧
      GetInputStateBoolean es up cp = (OxComponentResult.unavailable, none) ∧
      (∀ v : ℚ, SetInputStateFloat es up cp v = es) ∧
      (∀ b : Bool, SetInputStateBoolean es up cp b = es)) ∧
    (∀ ct : ComponentType, FindComponentInfo dd cp = some (ci, ct) →
      ct ≠ ComponentType.VEC2 →
      GetInputStateVec2 es up cp = (OxComponentResult.unavailable, none) ∧
      (∀ w : OxVector2f, SetInputStateVec2 es up cp w = es)) := by
  refine ⟨?_, ?_, ?_, ?_, ?_, ?_⟩
  · intro b hinfo hrv
    have hval := validate_of_parts es up cp di ci ComponentType.BOOLEAN dd hidx hdd hinfo
    simp [GetInputStateFloat, hval, hrv]
  · intro x hinfo hrv
    have hval := validate_of_parts es up cp di ci ComponentType.FLOAT dd hidx hdd hinfo
    simp [GetInputStateBoolean, hval, hrv]
  · intro v inp hinfo hdi hci
    have hval := validate_of_parts es up cp di ci ComponentType.BOOLEAN dd hidx hdd hinfo
    have hcs : SetInputStateFloatCS es up cp v =
        writeValue es di ci
          (InputValue.b (if mkRat 1 2 ≤ v then true else false)) := by
      simp [SetInputStateFloatCS, hval]
    obtain ⟨src, _, _, hsrcT, hsrcDef⟩ := findComponentInfo_spec dd cp ci _ hinfo
    have hdd1 : FindDeviceDefByUserPath (SetInputStateFloatCS es up cp v).profile up =
        some dd := by
      rw [hcs, writeValue_profile]
      exact hdd
    have hnof : SyncLinkedVec2FromFloat (SetInputStateFloatCS es up cp v) up cp =
        SetInputStateFloatCS es up cp v :=
      syncLinkedVec2FromFloat_nonfloat _ up cp dd src hdd1 hsrcDef
        (by rw [hsrcT]; decide)
    rw [SetInputStateFloat, hnof, hcs]
    exact readValue_writeValue_self es di ci _ inp hdi hci
  · intro b inp hinfo hdi hci
    have hval := validate_of_parts es up cp di ci ComponentType.FLOAT dd hidx hdd hinfo
    have hcs : SetInputStateBoolean es up cp b =
        writeValue es di ci (InputValue.f (if b then 1 else 0)) := by
      simp [SetInputStateBoolean, hval]
    rw [hcs]
    exact readValue_writeValue_self es di ci _ inp hdi hci
  · intro hinfo
    have hval := validate_of_parts es up cp di ci ComponentType.VEC2 dd hidx hdd hinfo
    obtain ⟨src, _, _, hsrcT, hsrcDef⟩ := findComponentInfo_spec dd cp ci _ hinfo
    refine ⟨by simp [GetInputStateFloat, hval],
      by simp [GetInputStateBoolean, hval], ?_, ?_⟩
    · intro v
      have hcs : SetInputStateFloatCS es up cp v = es := by
        simp [SetInputStateFloatCS, hval]
      rw [SetInputStateFloat, hcs]
      exact syncLinkedVec2FromFloat_nonfloat es up cp dd src hdd hsrcDef
        (by rw [hsrcT]; decide)
    · intro b
      simp [SetInputStateBoolean, hval]
  · intro ct hinfo hct
    have hval := validate_of_parts es up cp di ci ct dd hidx hdd hinfo
    refine ⟨?_, ?_⟩
    · cases ct with
      | VEC2 => exact absurd rfl hct
      | FLOAT => simp [GetInputStateVec2, hval]
      | BOOLEAN => simp [GetInputStateVec2, hval]
    · intro w
      have hcs : SetInputStateVec2CS es up cp w = es := by
        cases ct with
        | VEC2 => exact absurd rfl hct
        | FLOAT => simp [SetInputStateVec2CS, hval]
        | BOOLEAN => simp [SetInputStateVec2CS, hval]
      rw [SetInputStateVec2, hcs]
      exact syncLinkedFloatsFromVec2_nonvec2 es up cp dd ci ct hdd hinfo hct

/-- C10 witness: the Boolean-declared `/input/trigger/touch` component of
the Quest-2 right controller read through the Float accessor. -/
theorem c10_coercion_policy_witness :
    FindDeviceIndexByUserPath esQ2.state "/user/hand/right" = some 2 ∧
    FindDeviceDefByUserPath esQ2.profile "/user/hand/right" =
      some ⟨"/user/hand/right", "right_controller", true, false,
        ⟨⟨mkRat 2 10, mkRat 14 10, mkRat (-3) 10⟩, IDENTITY_QUAT⟩,
        OCULUS_TOUCH_COMPONENTS⟩ ∧
    FindComponentInfo
      ⟨"/user/hand/right", "right_controller", true, false,
        ⟨⟨mkRat 2 10, mkRat 14 10, mkRat (-3) 10⟩, IDENTITY_QUAT⟩,
        OCULUS_TOUCH_COMPONENTS⟩ "/input/trigger/touch" =
      some (1, ComponentType.BOOLEAN) ∧
    readValue esQ2 2 1 = some (InputValue.b false) ∧
    GetInputStateFloat esQ2 "/user/hand/right" "/input/trigger/touch" =
      (OxComponentResult.available, some (if false then 1 else 0)) :=
  ⟨by decide, by decide, by decide, by decide,
    (c10_coercion_policy esQ2 "/user/hand/right" "/input/trigger/touch" 2 1
      ⟨"/user/hand/right", "right_controller", true, false,
        ⟨⟨mkRat 2 10, mkRat 14 10, mkRat (-3) 10⟩, IDENTITY_QUAT⟩,
        OCULUS_TOUCH_COMPONENTS⟩ (by decide) (by decide)).1 false (by decide)
      (by decide)⟩

/-- C3 counterexample: `/input/trigger/touch` on the Quest-2 right
controller is declared BOOLEAN, so the claim says `GetInputStateFloat` on it
returns "component unavailable" and `SetInputStateFloat` on it is rejected.
The code instead answers the Float read with `OX_COMPONENT_AVAILABLE`
(coerced 0.0) and accepts the Float write, storing the threshold-coerced
boolean `true`. -/
theorem c3_bool_float_coercion_counterexample :
    FindComponentInfo
      ⟨"/user/hand/right", "right_controller", true, false,
        ⟨⟨mkRat 2 10, mkRat 14 10, mkRat (-3) 10⟩, IDENTITY_QUAT⟩,
        OCULUS_TOUCH_COMPONENTS⟩ "/input/trigger/touch" =
      some (1, ComponentType.BOOLEAN) ∧
    GetInputStateFloat esQ2 "/user/hand/right" "/input/trigger/touch" =
      (OxComponentResult.available, some 0) ∧
    readValue esQ2 2 1 = some (InputValue.b false) ∧
    readValue (SetInputStateFloat esQ2 "/user/hand/right" "/input/trigger/touch"
      (mkRat 7 10)) 2 1 = some (InputValue.b true) := by
  refine ⟨by decide, ?_, by decide, ?_⟩ <;> decide

/-- C3 amended: the getters return "component unavailable" when the device
or component is unresolved or when the mismatch involves VEC2; a
Boolean/Float kind mismatch coerces (1.0/0.0 one way, the `>= 0.5` threshold
the other) instead of failing, and `SetInputStateFloat` on a Boolean-typed
component is accepted, storing the threshold-coerced boolean — the stored
tag stays the declared kind. -/
theorem c3_kind_mismatch_amended (es : EngineState) (up cp : String)
    (di ci : Nat) (dd : DeviceDef)
    (hidx : FindDeviceIndexByUserPath es.state up = some di)
    (hdd : FindDeviceDefByUserPath es.profile up = some dd) :
    (ValidateDeviceAndComponent es up cp = none →
      GetInputStateBoolean es up cp = (OxComponentResult.unavailable, none) ∧
      GetInputStateFloat es up cp = (OxComponentResult.unavailable, none) ∧
      GetInputStateVec2 es up cp = (OxComponentResult.unavailable, none)) ∧
    (FindComponentInfo dd cp = some (ci, ComponentType.VEC2) →
      GetInputStateBoolean es up cp = (OxComponentResult.unavailable, none) ∧
      GetInputStateFloat es up cp = (OxComponentResult.unavailable, none)) ∧
    (∀ ct : ComponentType, FindComponentInfo dd cp = some (ci, ct) →
      ct ≠ ComponentType.VEC2 →
      GetInputStateVec2 es up cp = (OxComponentResult.unavailable, none)) ∧
    (∀ (v : ℚ) (inp : DeviceInputState),
      FindComponentInfo dd cp = some (ci, ComponentType.BOOLEAN) →
      es.state.device_inputs.get? di = some inp → ci < inp.values.length →
      readValue (SetInputStateFloat es up cp v) di ci =
        some (InputValue.b (if mkRat 1 2 ≤ v then true else false))) := by
  refine ⟨?_, ?_, ?_, ?_⟩
  · intro h
    exact ⟨by simp [GetInputStateBoolean, h], by simp [GetInputStateFloat, h],
      by simp [GetInputStateVec2, h]⟩
  · intro hinfo
    have hval := validate_of_parts es up cp di ci ComponentType.VEC2 dd hidx hdd hinfo
    exact ⟨by simp [GetInputStateBoolean, hval], by simp [GetInputStateFloat, hval]⟩
  · intro ct hinfo hct
    have hval := validate_of_parts es up cp di ci ct dd hidx hdd hinfo
    cases ct with
    | VEC2 => exact absurd rfl hct
    | FLOAT => simp [GetInputStateVec2, hval]
    | BOOLEAN => simp [GetInputStateVec2, hval]
  · intro v inp hinfo hdi hci
    have hval := validate_of_parts es up cp di ci ComponentType.BOOLEAN dd hidx hdd hinfo
    have hcs : SetInputStateFloatCS es up cp v =
        writeValue es di ci
          (InputValue.b (if mkRat 1 2 ≤ v then true else false)) := by
      simp [SetInputStateFloatCS, hval]
    obtain ⟨src, _, _, hsrcT, hsrcDef⟩ := findComponentInfo_spec dd cp ci _ hinfo
    have hdd1 : FindDeviceDefByUserPath (SetInputStateFloatCS es up cp v).profile up =
        some dd := by
      rw [hcs, writeValue_profile]
      exact hdd
    have hnof : SyncLinkedVec2FromFloat (SetInputStateFloatCS es up cp v) up cp =
        SetInputStateFloatCS es up cp v :=
      syncLinkedVec2FromFloat_nonfloat _ up cp dd src hdd1 hsrcDef
        (by rw [hsrcT]; decide)
    rw [SetInputStateFloat, hnof, hcs]
    exact readValue_writeValue_self es di ci _ inp hdi hci

/-- C3 amended witness: the accepted Float write on the Boolean-declared
trigger-touch component, storing the coerced boolean. -/
theorem c3_kind_mismatch_amended_witness :
    FindDeviceIndexByUserPath esQ2.state "/user/hand/right" = some 2 ∧
    FindDeviceDefByUserPath esQ2.profile "/user/hand/right" =
      some ⟨"/user/hand/right", "right_controller", true, false,
        ⟨⟨mkRat 2 10, mkRat 14 10, mkRat (-3) 10⟩, IDENTITY_QUAT⟩,
        OCULUS_TOUCH_COMPONENTS⟩ ∧
    FindComponentInfo
      ⟨"/user/hand/right", "right_controller", true, false,
        ⟨⟨mkRat 2 10, mkRat 14 10, mkRat (-3) 10⟩, IDENTITY_QUAT⟩,
        OCULUS_TOUCH_COMPONENTS⟩ "/input/trigger/touch" =
      some (1, ComponentType.BOOLEAN) ∧
    esQ2.state.device_inputs.get? 2 = some (DeviceInputState.mk
      (OCULUS_TOUCH_COMPONENTS.map fun c => zeroValue c.type)) ∧
    (1 : Nat) < (OCULUS_TOUCH_COMPONENTS.map fun c => zeroValue c.type).length ∧
    readValue (SetInputStateFloat esQ2 "/user/hand/right" "/input/trigger/touch"
      (mkRat 7 10)) 2 1 =
      some (InputValue.b (if mkRat 1 2 ≤ mkRat 7 10 then true else false)) :=
  ⟨by decide, by decide, by decide, by decide, by decide,
    (c3_kind_mismatch_amended esQ2 "/user/hand/right" "/input/trigger/touch" 2 1
      ⟨"/user/hand/right", "right_controller", true, false,
        ⟨⟨mkRat 2 10, mkRat 14 10, mkRat (-3) 10⟩, IDENTITY_QUAT⟩,
        OCULUS_TOUCH_COMPONENTS⟩ (by decide) (by decide)).2.2.2 (mkRat 7 10)
      (DeviceInputState.mk (OCULUS_TOUCH_COMPONENTS.map fun c => zeroValue c.type))
      (by decide) (by decide) (by decide)⟩

end OxSim
